import Mathlib

/-!
Verification of the rflink link-layer protocol engine (rflink.cpp / rflink.h)
against its natural-language specification.

The C++ sources are shallowly embedded below: machine integers are modelled
as `Nat` (with explicit `% 2^32` wraparound where the code relies on modular
`mtime_t` arithmetic), null pointers as `Option`, and the in-place mutations
of `rflink.cpp` as pure state-passing functions.  Every definition follows
the corresponding C++ function; deviations forced by C++ undefined behaviour
(null-pointer dereference, out-of-bounds array writes) are noted in comments
at the place where they occur.
-/

namespace RFLinkModel

/-! ## Constants from rflink.h -/

def PKTID_CACHE_SIZE : Nat := 10
def DEFAULT_RECEIVE_DATA_AVAIL_DELAY : Nat := 900
def DEFAULT_RECEIVE_PURGE_DELAY : Nat := 1000
def DEFAULT_RECEIVE_TIMEOUT_DELAY : Nat := 0
def DEFAULT_SEND_PURGE_DELAY : Nat := 1000
def CACHE_PKTID_DISCARD_DELAY : Nat := 176400000
def MIN_DEVICE_RESET_DELAY : Nat := 1000
def DEFAULT_MAX_TASK_COUNT : Nat := 15

def ERR_OK : Nat := 0
def ERR_DEVICE_NOT_REGISTERED : Nat := 1
def ERR_SEND_FUNC_NOT_REGISTERED : Nat := 2
def ERR_RECEIVE_FUNC_NOT_REGISTERED : Nat := 3
def ERR_SEND_DATA_LEN_ABOVE_LIMIT : Nat := 4
def ERR_SEND_IO : Nat := 5
def ERR_SEND_BAD_ARGUMENTS : Nat := 6
def ERR_SEND_NO_ACK_RCVD : Nat := 7
def ERR_TASK_CREATED_OK : Nat := 8
def ERR_UNABLE_TO_CREATE_TASK : Nat := 9
def ERR_UNKNOWN_TASKID : Nat := 10
def ERR_UNDEFINED : Nat := 11
def ERR_TASK_UNDERWAY : Nat := 12
def ERR_TIMEOUT : Nat := 13

def ST_NOTHING : Nat := 0
def ST_SEND : Nat := 1
def ST_SEND_DONE : Nat := 2
def ST_RECEIVE : Nat := 3
def ST_RECEIVE_DATA_AVAILABLE : Nat := 4
def ST_RECEIVE_DATA_RETRIEVED : Nat := 5
def ST_RECEIVE_TIMEDOUT : Nat := 6
def ST_FINISHED : Nat := 7

def FLAG_NONE : Nat := 0
def FLAG_SIN : Nat := 1
def FLAG_ACK : Nat := 2

def ADDR_BROADCAST : Nat := 0xFF

/-- `sizeof(Header)`: dst 1B, src 1B, flags 1B, pktid 2B, len 1B. -/
def HEADER_SIZE : Nat := 6

/-- `mtime_t` is a 32-bit `long unsigned int` on the AVR target. -/
def MTIME_MOD : Nat := 2 ^ 32

/-- Wrapping subtraction `a - b` on `mtime_t` (modular, as the C code relies
on: "Timestamp arithmetic uses modular subtraction"). -/
def wsub (a b : Nat) : Nat := (a % MTIME_MOD + (MTIME_MOD - b % MTIME_MOD)) % MTIME_MOD

/-- The C code computes `(long int)(tref - mtime_wakeup) >= 0`: the wrapped
32-bit difference reinterpreted as signed is nonnegative iff it is `< 2^31`. -/
def timeReached (tref m : Nat) : Bool := wsub tref m < 2 ^ 31

/-! ## Flags (`to_flags` / `from_flags` in rflink.cpp) -/

def to_flags (seq opt : Nat) : Nat := ((seq &&& 0x0F) <<< 4) ||| (opt &&& 0x0F)

def flags_opt (flags : Nat) : Nat := flags &&& 0x0F

def flags_seq (flags : Nat) : Nat := flags >>> 4

/-! ## Packets and `PktKeeper` -/

structure Header where
  dst : Nat
  src : Nat
  flags : Nat
  pktid : Nat
  len : Nat
  deriving Repr, DecidableEq

structure Packet where
  header : Header
  data : List Nat
  deriving Repr, DecidableEq

/-- `PktKeeper` holds either a packet or a null pointer. -/
def PktKeeper := Option Packet

instance : DecidableEq PktKeeper := by unfold PktKeeper; infer_instance

instance : Repr PktKeeper := by unfold PktKeeper; infer_instance

/-- `PktKeeper::get_flags`: returns `0xFF` on a null packet. -/
def pkGetFlags (p : PktKeeper) : Nat :=
  match p with
  | none => 0xFF
  | some pk => pk.header.flags

/-- `PktKeeper::set_flags`: no-op on a null packet. -/
def pkSetFlags (p : PktKeeper) (f : Nat) : PktKeeper :=
  match p with
  | none => none
  | some pk => some { pk with header := { pk.header with flags := f } }

/-- `PktKeeper::get_pkt_len`: 0 on a null packet, else header size + payload
length. -/
def pkGetPktLen (p : PktKeeper) : Nat :=
  match p with
  | none => 0
  | some pk => HEADER_SIZE + pk.header.len

/-- `pk->get_header_ptr()->pktid`.  The C code dereferences a null pointer
when the packet is absent (undefined behaviour); the model returns 0 there.
All call sites in reachable states have a packet. -/
def pkHeaderPktid (p : PktKeeper) : Nat :=
  match p with
  | none => 0
  | some pk => pk.header.pktid

/-- `pk->get_header_ptr()->src` (same null-pointer caveat as above). -/
def pkHeaderSrc (p : PktKeeper) : Nat :=
  match p with
  | none => 0
  | some pk => pk.header.src

/-- `PktKeeper::reduce_packet_to_its_header`: keep the header, set its `len`
to 0, drop the payload.  (The C code asserts the packet is present.) -/
def pkReduceToHeader (p : PktKeeper) : PktKeeper :=
  match p with
  | none => none
  | some pk => some ⟨{ pk.header with len := 0 }, []⟩

/-- `PktKeeper::check_rcvd_pkt_is_ok`: the buffer is non-null, the declared
payload length does not exceed the radio's maximum, and the on-wire byte
count equals header size + declared length. -/
def check_rcvd_pkt_is_ok (max_payload_len : Nat) (p : PktKeeper) (nb_bytes : Nat) : Bool :=
  match p with
  | none => false
  | some pk =>
    if pk.header.len > max_payload_len then false
    else pkGetPktLen (some pk) == nb_bytes

/-- `PktKeeper::prepare_for_sending`: materialize a frame from a header and
an optional payload, clamping the declared length to the radio's maximum. -/
def prepare_for_sending (max_payload_len : Nat) (h : Header) (data : Option (List Nat)) :
    PktKeeper :=
  let l := if h.len > max_payload_len then max_payload_len else h.len
  some ⟨{ h with len := l }, ((data.getD []).take l)⟩

/-- `PktKeeper::copy_data`: copy at most `buf_len` payload bytes to the
application buffer, reporting the copied length. -/
def pkCopyData (p : PktKeeper) (buf_len : Nat) : List Nat :=
  match p with
  | none => []
  | some pk =>
    let rec_len := if pk.header.len > buf_len then buf_len else pk.header.len
    pk.data.take rec_len

/-! ## Duplicate cache (`cache_pktid_t`, `RFLink::check_pktid_already_seen`) -/

structure CacheEntry where
  used : Bool
  src : Nat
  mtime : Nat
  last_pktid_seen : Nat
  deriving Repr, DecidableEq

/-- Accumulator of the scan loop of `check_pktid_already_seen`: the local
variables `src_found`, `ret`, `unused_entry_idx`, `oldest_entry_idx` and
`biggest_elapsed_found` (the two indices are `int` initialized to −1 in C,
modelled as `Option Nat`). -/
structure ScanAcc where
  src_found : Bool
  ret : Bool
  unused_idx : Option Nat
  oldest_idx : Option Nat
  biggest_elapsed : Nat
  deriving Repr, DecidableEq

def ScanAcc.init : ScanAcc := ⟨false, false, none, none, 0⟩

/-- The age-based expiry sweep applied to one slot at the top of the loop
body of `check_pktid_already_seen`: an entry whose age reaches
`CACHE_PKTID_DISCARD_DELAY` is marked free. -/
def entryExpire (tref : Nat) (e : CacheEntry) : CacheEntry :=
  if e.used && decide (wsub tref e.mtime ≥ CACHE_PKTID_DISCARD_DELAY) then
    { e with used := false }
  else e

/-- The `for` loop of `RFLink::check_pktid_already_seen`, one iteration per
cache slot, carrying the slot index `i`. -/
def cacheScanLoop (src pktid tref : Nat) :
    Nat → ScanAcc → List CacheEntry → List CacheEntry × ScanAcc
  | _, acc, [] => ([], acc)
  | i, acc, e :: rest =>
    let elapsed := wsub tref e.mtime
    -- age-based expiry sweep
    let e1 := entryExpire tref e
    if !e1.used then
      let acc1 := { acc with
        unused_idx := match acc.unused_idx with
                      | none => some i
                      | some j => some j }
      let (res, acc') := cacheScanLoop src pktid tref (i + 1) acc1 rest
      (e1 :: res, acc')
    else if e1.src == src then
      -- live entry for this source: refresh timestamp, compare packet-id
      let e2 :=
        if e1.last_pktid_seen == pktid then { e1 with mtime := tref }
        else { e1 with mtime := tref, last_pktid_seen := pktid }
      let acc1 := { acc with
        src_found := true
        ret := acc.ret || (e1.last_pktid_seen == pktid) }
      let (res, acc') := cacheScanLoop src pktid tref (i + 1) acc1 rest
      (e2 :: res, acc')
    else
      let acc1 :=
        if elapsed > acc.biggest_elapsed then
          { acc with oldest_idx := some i, biggest_elapsed := elapsed }
        else acc
      let (res, acc') := cacheScanLoop src pktid tref (i + 1) acc1 rest
      (e1 :: res, acc')

/-- Scan phase of `check_pktid_already_seen`. -/
def cache_scan (cache : List CacheEntry) (src pktid tref : Nat) :
    List CacheEntry × ScanAcc :=
  cacheScanLoop src pktid tref 0 ScanAcc.init cache

/-- The slot the install phase writes to: the first free slot if any,
otherwise the slot with the greatest age.  `none` corresponds to the C value
`idx == -1` — in that case the C code performs `cache_pktids[-1] = ...`, an
out-of-bounds write (undefined behaviour). -/
def cacheInstallIdx (acc : ScanAcc) : Option Nat :=
  match acc.unused_idx with
  | some i => some i
  | none => acc.oldest_idx

/-- `RFLink::check_pktid_already_seen` (the duplicate-cache observe
operation): returns whether the `(src, pktid)` pair was already seen, and
the updated cache.  When the install phase resolves to index −1 the C code
writes out of bounds; the model leaves the table unchanged there. -/
def check_pktid_already_seen (cache : List CacheEntry) (src pktid tref : Nat) :
    Bool × List CacheEntry :=
  let scanned := cache_scan cache src pktid tref
  if scanned.2.src_found then (scanned.2.ret, scanned.1)
  else
    match cacheInstallIdx scanned.2 with
    | some idx => (false, scanned.1.set idx ⟨true, src, tref, pktid⟩)
    | none => (false, scanned.1)

/-- Cache state right after the `RFLink` constructor: all slots unused. -/
def initCache : List CacheEntry :=
  List.replicate PKTID_CACHE_SIZE ⟨false, 0, 0, 0⟩

/-! ## Tasks -/

/-- The `Task` record of rflink.h (the intrusive `next` pointer is replaced
by the position in the pool list; `send_schedule_ptr` carries the schedule
as a list). -/
structure Task where
  taskid : Nat
  status : Nat
  pktkeeper : PktKeeper
  mtime_ref : Nat
  mtime_wakeup : Nat
  last_retcode : Nat
  nb_send_schedules : Nat
  send_schedule_ptr : List Nat
  send_schedule_pos : Nat
  evtsub_wakeup : Bool
  evtsub_pktrcvd : Bool
  is_an_ack : Bool
  need_ack : Bool
  has_received_ack : Bool
  unattended : Bool
  nbsend : Nat
  deriving Repr, DecidableEq

instance : Inhabited Task :=
  ⟨⟨0, ST_NOTHING, none, 0, 0, ERR_UNDEFINED, 0, [], 0,
    false, false, false, false, false, false, 0⟩⟩

/-- `RFLink::task_initialize` combined with
`tsk_to_destroy->pktkeeper.release_data()` (as done by `task_destroy` in the
pre-allocated mode): the slot becomes free. -/
def task_initialize (t : Task) : Task :=
  { t with
    taskid := 0
    status := ST_NOTHING
    evtsub_wakeup := false
    evtsub_pktrcvd := false
    last_retcode := ERR_UNDEFINED
    pktkeeper := none }

/-- Field values common to `RFLink::task_create` (after `task_initialize`):
fresh task id, requested status, reference timestamp, cleared flag bits. -/
def task_create_fields (t : Task) (taskid status now : Nat) : Task :=
  { task_initialize t with
    taskid := taskid
    status := status
    mtime_ref := now
    is_an_ack := false
    need_ack := false
    has_received_ack := false
    unattended := false
    nbsend := 0 }

/-! ## Retransmission schedules (`snd_sched`, `snd_expack_sched`,
`snd_repack_sched` in rflink.cpp) -/

/-- Sending schedule when no ACK is expected (absolute offsets in ms from
the task's reference timestamp). -/
def snd_sched : List Nat := [0, 200, 550, 900]

def snd_sched_len : Nat := snd_sched.length

/-- Sending schedule when an ACK is expected.  At all timings except the
last one a sending occurs; the last timing is the listen window. -/
def snd_expack_sched : List Nat := [0, 100, 450, 800, 900]

def snd_expack_sched_len : Nat := snd_expack_sched.length

/-- ACK sending schedule. -/
def snd_repack_sched : List Nat := [0]

def snd_repack_sched_len : Nat := snd_repack_sched.length

/-! ## `RFLink::tev_received` -/

/-- Outcome of `RFLink::tev_received`: the mutated task, the returned status
(committed by `do_events`), the `pkt_consumed` out-parameter, and whether
`send_ack(tsk)` was invoked (it creates an ACK task as a side effect). -/
structure TevRcvdRes where
  task : Task
  ret : Nat
  consumed : Bool
  calledSendAck : Bool
  deriving Repr, DecidableEq

/-- `RFLink::tev_received`, handling one drained frame offered to one task.
`rda_delay` is `receive_data_avail_delay`, `spd` is `send_purge_delay`,
`now` stands for the `get_current_time()` reads inside the function. -/
def tev_received (rda_delay spd now : Nat) (tsk : Task) (pk : Packet)
    (pktid_already_seen : Bool) : TevRcvdRes :=
  let hbackup := pk.header
  let opt := flags_opt pk.header.flags
  if opt &&& FLAG_ACK ≠ 0 then
    -- ACK frame: only the packet-id is compared (the source is not examined)
    if (tsk.status = ST_SEND ∨ tsk.status = ST_SEND_DONE)
        ∧ tsk.need_ack = true ∧ tsk.has_received_ack = false
        ∧ pkHeaderPktid tsk.pktkeeper = pk.header.pktid then
      let t1 := { tsk with has_received_ack := true }
      let t2 := if tsk.status = ST_SEND then { t1 with mtime_wakeup := now + spd } else t1
      let t3 := { t2 with pktkeeper := pkReduceToHeader t2.pktkeeper }
      ⟨t3, if tsk.status = ST_SEND then ST_SEND_DONE else tsk.status, true, false⟩
    else
      ⟨tsk, tsk.status, false, false⟩
  else if tsk.status = ST_RECEIVE ∧ pktid_already_seen = false then
    ⟨{ tsk with
        pktkeeper := some pk
        last_retcode := ERR_OK
        evtsub_wakeup := true
        mtime_ref := now
        mtime_wakeup := now + rda_delay },
      ST_RECEIVE_DATA_AVAILABLE, true, false⟩
  else if tsk.status = ST_RECEIVE_DATA_AVAILABLE ∨ tsk.status = ST_RECEIVE_DATA_RETRIEVED then
    if pkHeaderPktid tsk.pktkeeper = hbackup.pktid
        ∧ pkHeaderSrc tsk.pktkeeper = hbackup.src then
      ⟨tsk, tsk.status, true, tsk.status = ST_RECEIVE_DATA_RETRIEVED⟩
    else
      ⟨tsk, tsk.status, false, false⟩
  else
    ⟨tsk, tsk.status, false, false⟩

/-! ## `RFLink::tev_wakeup` -/

/-- Outcome of `RFLink::tev_wakeup`: the mutated task, the returned status,
and whether `deviceSend` was invoked (a transmission occurred). -/
structure TevWkRes where
  task : Task
  ret : Nat
  transmitted : Bool
  deriving Repr, DecidableEq

/-- `RFLink::data_retrieved_post`: free the payload, subscribe to the timer,
schedule the purge deadline.  `rpd` is `receive_purge_delay`. -/
def data_retrieved_post (rpd : Nat) (t : Task) : Task :=
  { t with
    pktkeeper := pkReduceToHeader t.pktkeeper
    evtsub_wakeup := true
    mtime_wakeup := t.mtime_ref + rpd }

/-- `RFLink::tev_wakeup`.  `spd` is `send_purge_delay`, `rpd` is
`receive_purge_delay`, `now` stands for `get_current_time()`, and `sendRet`
is the status byte the radio driver would return from `deviceSend`. -/
def tev_wakeup (spd rpd now sendRet : Nat) (tsk : Task) : TevWkRes :=
  if tsk.status = ST_SEND then
    -- a transmission occurs at every schedule entry except, for an
    -- ACK-expecting task, the last one (the listen window)
    let doSend : Bool :=
      !tsk.need_ack || decide ((tsk.send_schedule_pos : Int) < (tsk.nb_send_schedules : Int) - 1)
    let t1 : Task :=
      if doSend then
        let ta := { tsk with nbsend := tsk.nbsend + 1, last_retcode := sendRet }
        let seq := flags_seq (pkGetFlags ta.pktkeeper)
        let seq1 := if ta.is_an_ack = false then seq + 1 else seq
        { ta with pktkeeper := pkSetFlags ta.pktkeeper (to_flags seq1 (pkGetFlags ta.pktkeeper)) }
      else tsk
    let t2 : Task := { t1 with send_schedule_pos := t1.send_schedule_pos + 1 }
    if t2.send_schedule_pos < t2.nb_send_schedules then
      ⟨{ t2 with mtime_wakeup := t2.mtime_ref + t2.send_schedule_ptr.getD t2.send_schedule_pos 0 },
        ST_SEND, doSend⟩
    else
      ⟨{ t2 with mtime_wakeup := if t2.unattended then now else now + spd },
        ST_SEND_DONE, doSend⟩
  else if tsk.status = ST_SEND_DONE then
    ⟨tsk, ST_FINISHED, false⟩
  else if tsk.status = ST_RECEIVE_DATA_RETRIEVED ∨ tsk.status = ST_RECEIVE_TIMEDOUT then
    ⟨tsk, ST_FINISHED, false⟩
  else if tsk.status = ST_RECEIVE_DATA_AVAILABLE then
    ⟨data_retrieved_post rpd tsk, ST_RECEIVE_TIMEDOUT, false⟩
  else if tsk.status = ST_RECEIVE then
    ⟨{ tsk with
        evtsub_wakeup := true
        mtime_wakeup := tsk.mtime_ref + DEFAULT_RECEIVE_TIMEOUT_DELAY },
      ST_RECEIVE_TIMEDOUT, false⟩
  else
    -- `assert(false)` in the C code, then `return ST_NOTHING`
    ⟨tsk, ST_NOTHING, false⟩

/-- Status commit at the end of a `do_events` pass over one task: a task
whose new status is `ST_FINISHED` is destroyed (`task_destroy` releases the
packet and re-initializes the slot), otherwise the new status is stored. -/
def task_commit (t : Task) (new_status : Nat) : Task :=
  if new_status = ST_FINISHED then task_initialize t
  else { t with status := new_status }

/-! ## Engine state and task pool (pre-allocated, compile-time-sized mode:
`ENFORCE_MAX_TASK_COUNT_AT_COMPILE_TIME` is defined in rflink.h) -/

/-- The mutable state of one `RFLink` instance (the fields of the class that
the modelled operations read or write). -/
structure EngineState where
  max_payload_len : Nat
  device_addr : Nat
  last_pktid : Nat
  last_taskid : Nat
  receive_data_avail_delay : Nat
  receive_purge_delay : Nat
  send_purge_delay : Nat
  last_device_reset : Nat
  task_count : Nat
  max_task_count : Nat
  cache_pktids : List CacheEntry
  tasks : List Task
  deriving Repr, DecidableEq

/-- `RFLink::task_create` on the pre-allocated pool: refuse when the pool is
full, otherwise claim the first slot whose status is `ST_NOTHING` and
initialize it with a fresh task id.  Returns the updated state and the index
of the claimed slot. -/
def task_create (st : EngineState) (status now : Nat) : Option (EngineState × Nat) :=
  if st.task_count ≥ st.max_task_count then none
  else
    match st.tasks.findIdx? (fun t => t.status == ST_NOTHING) with
    | none => none
    | some idx =>
      let taskid := (st.last_taskid + 1) % 65536
      let tsk := task_create_fields ((st.tasks.getD idx default)) taskid status now
      some ({ st with
                tasks := st.tasks.set idx tsk
                last_taskid := taskid
                task_count := st.task_count + 1 }, idx)

/-- Update the task at slot `idx` with `f`. -/
def modifyTask (st : EngineState) (idx : Nat) (f : Task → Task) : EngineState :=
  { st with tasks := st.tasks.set idx (f (st.tasks.getD idx default)) }

/-! ## ACK transmission (`send_ack_noblock`, `send_ack`) -/

/-- The ACK header built by `RFLink::send_ack`: destination is the original
sender, the packet-id is copied, the payload is empty. -/
def make_ack_header (device_addr : Nat) (h : Header) (seq : Nat) : Header :=
  { dst := h.src
    src := device_addr
    flags := to_flags seq FLAG_ACK
    pktid := h.pktid
    len := 0 }

/-- `RFLink::send_ack_noblock`: create an unattended ACK `SEND` task on the
`snd_repack_sched` schedule.  Device registration checks are assumed passed
(the engine is running).  When no task slot is free the C code returns
`ERR_UNABLE_TO_CREATE_TASK` and the state is unchanged. -/
def send_ack_noblock (st : EngineState) (h : Header) (now : Nat) : EngineState :=
  match task_create st ST_SEND now with
  | none => st
  | some (st1, idx) =>
    modifyTask st1 idx (fun tsk =>
      { tsk with
        evtsub_wakeup := true
        send_schedule_ptr := snd_repack_sched
        nb_send_schedules := snd_repack_sched_len
        send_schedule_pos := 0
        mtime_wakeup := tsk.mtime_ref + snd_repack_sched.getD 0 0
        is_an_ack := true
        unattended := true
        pktkeeper := prepare_for_sending st1.max_payload_len h none })

/-- `RFLink::send_ack`: if the (stored) frame requested an acknowledgement
(SIN flag), queue one ACK task answering it. -/
def send_ack (st : EngineState) (tsk : Task) (now : Nat) : EngineState :=
  let seq := flags_seq (pkGetFlags tsk.pktkeeper)
  let opt := flags_opt (pkGetFlags tsk.pktkeeper)
  if opt &&& FLAG_SIN ≠ 0 then
    match tsk.pktkeeper with
    | none => st  -- null `get_header_ptr()` dereference in C; unreachable
    | some pk => send_ack_noblock st (make_ack_header st.device_addr pk.header seq) now
  else st

/-- Whether `send_ack` actually queues an ACK transmission for this task. -/
def send_ack_fires (tsk : Task) : Bool :=
  flags_opt (pkGetFlags tsk.pktkeeper) &&& FLAG_SIN ≠ 0

/-! ## Public API: send / receive entry points -/

/-- `RFLink::send_noblock`.  `hasInit`/`hasSend` model the registration of
the `deviceInit` / `deviceSend` callbacks; `data` is the payload pointer
(`none` = null).  Returns the status byte, the created task id (when one
was created) and the updated engine state. -/
def send_noblock (st : EngineState) (hasInit hasSend : Bool) (dst : Nat)
    (data : Option (List Nat)) (len : Nat) (ack : Bool) (now : Nat) :
    Nat × Option Nat × EngineState :=
  if !hasInit then (ERR_DEVICE_NOT_REGISTERED, none, st)
  else if !hasSend then (ERR_SEND_FUNC_NOT_REGISTERED, none, st)
  else if len > st.max_payload_len then (ERR_SEND_DATA_LEN_ABOVE_LIMIT, none, st)
  -- only this direction of the precondition is tested here; `len != 0` with
  -- a null pointer is left to an assert inside `prepare_for_sending`
  else if len = 0 ∧ data ≠ none then (ERR_SEND_BAD_ARGUMENTS, none, st)
  else
    match task_create st ST_SEND now with
    | none => (ERR_UNABLE_TO_CREATE_TASK, none, st)
    | some (st1, idx) =>
      let pktid := (st1.last_pktid + 1) % 65536
      let h : Header :=
        { src := st1.device_addr
          dst := dst
          flags := to_flags 0 (if ack then FLAG_SIN else FLAG_NONE)
          pktid := pktid
          len := len }
      let st2 := modifyTask { st1 with last_pktid := pktid } idx (fun tsk =>
        { tsk with
          evtsub_wakeup := true
          nb_send_schedules := if ack then snd_expack_sched_len else snd_sched_len
          send_schedule_ptr := if ack then snd_expack_sched else snd_sched
          send_schedule_pos := 0
          mtime_wakeup := tsk.mtime_ref
            + (if ack then snd_expack_sched else snd_sched).getD 0 0
          need_ack := ack
          evtsub_pktrcvd := ack
          pktkeeper := prepare_for_sending st1.max_payload_len h data })
      (ERR_TASK_CREATED_OK, some ((st1.tasks.getD idx default).taskid), st2)

/-- `RFLink::receive_noblock` (the `RXConfig` timeout part; the
single-sender filter and callback fields are never read by rflink.cpp). -/
def receive_noblock (st : EngineState) (hasInit hasReceive : Bool)
    (timeout : Option Nat) (now : Nat) : Nat × Option Nat × EngineState :=
  if !hasInit then (ERR_DEVICE_NOT_REGISTERED, none, st)
  else if !hasReceive then (ERR_RECEIVE_FUNC_NOT_REGISTERED, none, st)
  else
    match task_create st ST_RECEIVE now with
    | none => (ERR_UNABLE_TO_CREATE_TASK, none, st)
    | some (st1, idx) =>
      let st2 := modifyTask st1 idx (fun tsk =>
        let t1 := { tsk with evtsub_pktrcvd := true }
        match timeout with
        | none => t1
        | some d => { t1 with evtsub_wakeup := true, mtime_wakeup := t1.mtime_ref + d })
      (ERR_TASK_CREATED_OK, some ((st1.tasks.getD idx default).taskid), st2)

/-- `RFLink::get_task_by_taskid`: O(n) walk of the pool. -/
def get_task_by_taskid (pool : List Task) (taskid : Nat) : Option Task :=
  pool.find? (fun t => t.taskid == taskid)

/-- `RFLink::task_get_status`: the status of the task, or `ST_NOTHING` when
no task carries this task id. -/
def task_get_status (pool : List Task) (taskid : Nat) : Nat :=
  match get_task_by_taskid pool taskid with
  | none => ST_NOTHING
  | some tsk => tsk.status

/-- Return value of `RFLink::send_get_final_status`. -/
def send_get_final_status_ret (pool : List Task) (taskid : Nat) : Nat :=
  match get_task_by_taskid pool taskid with
  | none => ERR_UNKNOWN_TASKID
  | some tsk =>
    if tsk.status ≠ ST_SEND_DONE then ERR_TASK_UNDERWAY
    else if tsk.need_ack = true ∧ tsk.has_received_ack = true then ERR_OK
    else if tsk.need_ack = true then ERR_SEND_NO_ACK_RCVD
    else tsk.last_retcode

/-- Task mutation performed by `send_get_final_status` before returning
("terminating immediately"): wake the task up right now so the next tick
finishes it. -/
def send_get_final_status_task (now : Nat) (tsk : Task) : Task :=
  { tsk with evtsub_wakeup := true, mtime_wakeup := now }

/-! ## `RFLink::data_retrieve` and the blocking receive -/

/-- Outcome of `RFLink::data_retrieve` on a (non-null) task: the returned
status, the mutated task, the bytes copied to the application buffer, the
reported sender, and whether `send_ack` was invoked. -/
structure DataRetrieveRes where
  ret : Nat
  task : Task
  recData : Option (List Nat)
  sender : Option Nat
  calledSendAck : Bool
  deriving Repr, DecidableEq

/-- `RFLink::data_retrieve` body for a non-null task.  `rpd` is
`receive_purge_delay`. -/
def data_retrieve_task (rpd buf_len : Nat) (tsk : Task) : DataRetrieveRes :=
  if tsk.status ≠ ST_RECEIVE_DATA_AVAILABLE then
    ⟨tsk.status, tsk, none, none, false⟩
  else
    let recData := pkCopyData tsk.pktkeeper buf_len
    let sender := pkHeaderSrc tsk.pktkeeper
    let t1 := data_retrieved_post rpd tsk
    let t2 := { t1 with status := ST_RECEIVE_DATA_RETRIEVED }
    ⟨ST_RECEIVE_DATA_RETRIEVED, t2, some recData, some sender, true⟩

/-- `RFLink::data_retrieve` return value, including the null-task case
(`if (!tsk) return ST_NOTHING`). -/
def data_retrieve_ret (rpd buf_len : Nat) (tsk : Option Task) : Nat :=
  match tsk with
  | none => ST_NOTHING
  | some t => (data_retrieve_task rpd buf_len t).ret

/-- The final mapping of the blocking `RFLink::receive`: translate the
`data_retrieve` status into an API error code.  The first branch is an
`assert(false)` in the C code (a no-op in release builds) falling through to
`return ERR_UNDEFINED`. -/
def receive_map_result (r : Nat) : Nat :=
  if r = ST_RECEIVE_DATA_AVAILABLE ∨ r = ST_RECEIVE then ERR_UNDEFINED
  else if r = ST_NOTHING then ERR_TIMEOUT
  else if r = ST_RECEIVE_DATA_RETRIEVED then ERR_OK
  else if r = ST_RECEIVE_TIMEDOUT then ERR_TIMEOUT
  else ERR_UNDEFINED

/-! ## The event pump (`RFLink::do_events`)

One tick, modelled with a single timestamp `now` standing for every
`millis()` read inside the call, and `sendRet` for the status byte of any
`deviceSend` call issued during the tick. -/

/-- State threaded through the per-task pass of `do_events`: the engine
state, the not-yet-consumed drained frame (`got_a_pkt` + the scratch
buffer), the shared `pktid_already_seen` boolean, and the pending
`device_needs_reset` flag. -/
structure TickState where
  st : EngineState
  gotPkt : Option Packet
  seen : Bool
  device_needs_reset : Bool

/-- One iteration of the task loop of `do_events`, acting on the task in
slot `i`: offer the frame (if subscribed and still unconsumed), then the
timer event (if subscribed, the status is unchanged, and the deadline has
elapsed); finally commit the new status, destroying the task if it reached
`ST_FINISHED` and noting whether a needs-ACK send failed. -/
def taskStep (now sendRet : Nat) (ts : TickState) (i : Nat) : TickState :=
  match ts.st.tasks[i]? with
  | none => ts
  | some tsk =>
    -- frame-received event
    let afterRcv : Task × Nat × TickState :=
      match ts.gotPkt with
      | some pk =>
        if tsk.evtsub_pktrcvd then
          let r := tev_received ts.st.receive_data_avail_delay ts.st.send_purge_delay
                     now tsk pk ts.seen
          let st1 := if r.calledSendAck then send_ack ts.st r.task now else ts.st
          (r.task, r.ret,
            { ts with st := st1, gotPkt := if r.consumed then none else ts.gotPkt })
        else (tsk, tsk.status, ts)
      | none => (tsk, tsk.status, ts)
    let tsk1 := afterRcv.1
    let new_status := afterRcv.2.1
    let ts1 := afterRcv.2.2
    -- timer event (only if the frame event did not change the status)
    let afterWk : Task × Nat :=
      if tsk1.evtsub_wakeup ∧ new_status = tsk.status ∧ timeReached now tsk1.mtime_wakeup then
        let w := tev_wakeup ts1.st.send_purge_delay ts1.st.receive_purge_delay now sendRet tsk1
        (w.task, w.ret)
      else (tsk1, new_status)
    let tsk2 := afterWk.1
    let final_status := afterWk.2
    -- commit / destroy
    if final_status = ST_FINISHED then
      let reset := ts1.device_needs_reset
        || (tsk.status == ST_SEND_DONE && tsk2.need_ack && !tsk2.has_received_ack)
      { ts1 with
        st := { ts1.st with
                  tasks := ts1.st.tasks.set i ( task_initialize tsk2)
                  task_count := ts1.st.task_count - 1 }
        device_needs_reset := reset }
    else
      { ts1 with st := { ts1.st with tasks := ts1.st.tasks.set i { tsk2 with status := final_status } } }

/-- `RFLink::do_events`.  `interruptedFlag` is the ISR-set boolean; `recv`
is the frame the radio driver would hand over (`none`: zero bytes pending),
as a packet plus the on-wire byte count reported by `deviceReceive`. -/
def do_events (st : EngineState) (hasInit hasReceive : Bool)
    (interruptedFlag : Bool) (recv : Option (Packet × Nat)) (now sendRet : Nat) :
    EngineState :=
  if !hasInit then st
  else
    let i_want_to_receive := st.tasks.any (fun t => t.evtsub_pktrcvd) && hasReceive
    -- drain and validate at most one frame
    let got : Option Packet :=
      if interruptedFlag && i_want_to_receive then
        match recv with
        | some (p, nb) =>
          if check_rcvd_pkt_is_ok st.max_payload_len (some p) nb then some p else none
        | none => none
      else none
    -- consult the duplicate cache once per valid drained frame
    let seenCache : Bool × List CacheEntry :=
      match got with
      | some p => check_pktid_already_seen st.cache_pktids p.header.src p.header.pktid now
      | none => (false, st.cache_pktids)
    let st1 := { st with cache_pktids := seenCache.2 }
    -- the per-task pass (pool order)
    let ts := (List.range st1.tasks.length).foldl (taskStep now sendRet)
      ⟨st1, got, seenCache.1, false⟩
    -- throttled device reset after a failed needs-ACK send
    let st2 := ts.st
    if ts.device_needs_reset ∧ wsub now st2.last_device_reset ≥ MIN_DEVICE_RESET_DELAY then
      { st2 with last_device_reset := now }
    else st2

/-! ## Receiver-side simulation for the retransmit-idempotence property

Tracks one receiver task together with the duplicate cache, the number of
application-visible deliveries (executions of the `copy_data` branch of
`data_retrieve`) and the number of ACK transmissions queued (each
`send_ack_noblock` call creates one unattended task on the one-entry
`snd_repack_sched` schedule, hence exactly one ACK frame on the air).
Events are modelled at a common timestamp `now`; the claim presumes all
arrivals fall inside the cache-retention and task-purge windows, so the
precise timing is immaterial. -/

structure RcvSim where
  tsk : Task
  cache : List CacheEntry
  delivered : Nat
  acks : Nat
  deriving Repr, DecidableEq

/-- The receiver events the claim quantifies over: one arrival of the frame
(as delivered to the task by `do_events`: duplicate-cache consult followed
by `tev_received`), or one application `data_retrieve`. -/
inductive RcvEv where
  | arrive
  | retrieve
  deriving Repr, DecidableEq

/-- One event of the receiver simulation, for the fixed incoming frame `f`.
`rda`/`rpd`/`spd` are the three tunable delays; `buf_len` is the size of the
application's retrieval buffer. -/
def rcvStep (rda rpd buf_len now : Nat) (f : Packet) (sim : RcvSim) : RcvEv → RcvSim
  | RcvEv.arrive =>
    let seenCache := check_pktid_already_seen sim.cache f.header.src f.header.pktid now
    let r := tev_received rda DEFAULT_SEND_PURGE_DELAY now sim.tsk f seenCache.1
    { tsk := task_commit r.task r.ret
      cache := seenCache.2
      delivered := sim.delivered
      acks := sim.acks + (if r.calledSendAck && send_ack_fires r.task then 1 else 0) }
  | RcvEv.retrieve =>
    let r := data_retrieve_task rpd buf_len sim.tsk
    { tsk := r.task
      cache := sim.cache
      delivered := sim.delivered + (if r.recData.isSome then 1 else 0)
      acks := sim.acks + (if r.calledSendAck && send_ack_fires sim.tsk then 1 else 0) }

/-- A fresh receiver task as created by `receive_noblock` with no timeout
configured (slot claimed by `task_create`, then `evtsub_pktrcvd` set). -/
def fresh_receive_task (taskid now : Nat) : Task :=
  { task_create_fields default taskid ST_RECEIVE now with evtsub_pktrcvd := true }

/-- Run a receiver event sequence from a fresh receiver task and an empty
duplicate cache. -/
def rcvRun (rda rpd buf_len now taskid : Nat) (f : Packet) (evs : List RcvEv) : RcvSim :=
  evs.foldl (rcvStep rda rpd buf_len now f)
    ⟨fresh_receive_task taskid now, initCache, 0, 0⟩

/-! ## Concrete sample values used by counterexamples and witnesses -/

/-- Outgoing packet of a sample ACK-expecting send task: destination 5,
source 1, SIN flag, packet-id 1, two payload bytes. -/
def samplePkt : Packet := ⟨⟨5, 1, 1, 1, 2⟩, [10, 20]⟩

/-- A sample ACK-expecting `ST_SEND` task, one transmission done. -/
def sampleSendTask : Task :=
  { taskid := 1
    status := ST_SEND
    pktkeeper := some samplePkt
    mtime_ref := 0
    mtime_wakeup := 100
    last_retcode := ERR_UNDEFINED
    nb_send_schedules := snd_expack_sched_len
    send_schedule_ptr := snd_expack_sched
    send_schedule_pos := 1
    evtsub_wakeup := true
    evtsub_pktrcvd := true
    is_an_ack := false
    need_ack := true
    has_received_ack := false
    unattended := false
    nbsend := 1 }

/-- An ACK frame whose packet-id matches `samplePkt` but whose source (7)
differs from `samplePkt`'s destination (5). -/
def ackFrameWrongSrc : Packet := ⟨⟨1, 7, FLAG_ACK, 1, 0⟩, []⟩

/-- An incoming data frame with the SIN flag set (pktid 7, 3 payload
bytes), as used by the receiver-side scenarios. -/
def sampleInFrame : Packet := ⟨⟨0xCE, 0x0B, FLAG_SIN, 7, 3⟩, [104, 105, 0]⟩

/-- A full duplicate cache: 10 live entries for sources 0..9, all updated
at time 100. -/
def fullFreshCache : List CacheEntry :=
  (List.range 10).map (fun i => ⟨true, i, 100, 42⟩)

/-- A sample engine state: empty 2-slot pool, max payload 10. -/
def sampleEngine : EngineState :=
  { max_payload_len := 10
    device_addr := 0x0B
    last_pktid := 0
    last_taskid := 0
    receive_data_avail_delay := DEFAULT_RECEIVE_DATA_AVAIL_DELAY
    receive_purge_delay := DEFAULT_RECEIVE_PURGE_DELAY
    send_purge_delay := DEFAULT_SEND_PURGE_DELAY
    last_device_reset := 0
    task_count := 0
    max_task_count := 2
    cache_pktids := initCache
    tasks := [default, default] }

/-! # Theorems -/

/-! ## C10 — unknown task ids -/

/-- C10: for every task-id that does not name any live task,
`task_get_status` returns `ST_NOTHING` rather than an error code (slots
whose id could coincide are free, i.e. in `ST_NOTHING`, so the result is
`ST_NOTHING` either way); `data_retrieve` on the absent task likewise
returns `ST_NOTHING`; and the blocking `receive` maps that `ST_NOTHING`
result to `ERR_TIMEOUT` for the caller. -/
theorem C10_unknown_taskid_timeout :
    (∀ (pool : List Task) (tid : Nat),
      (∀ t ∈ pool, t.taskid = tid → t.status = ST_NOTHING) →
      task_get_status pool tid = ST_NOTHING)
    ∧ (∀ rpd buf_len, data_retrieve_ret rpd buf_len none = ST_NOTHING)
    ∧ receive_map_result ST_NOTHING = ERR_TIMEOUT := by
  refine ⟨?_, fun _ _ => rfl, rfl⟩
  intro pool tid h
  unfold task_get_status get_task_by_taskid
  induction pool with
  | nil => rfl
  | cons a l ih =>
    rw [List.find?_cons]
    rcases hb : (a.taskid == tid) with _ | _
    · exact ih (fun t ht hteq => h t (List.mem_cons_of_mem _ ht) hteq)
    · simpa using h a (List.mem_cons_self a l) (by simpa using hb)

/-- Witness for C10 at a concrete input: a pool holding one free slot and
the never-issued task-id 5. -/
theorem C10_unknown_taskid_timeout_witness :
    task_get_status [(default : Task)] 5 = ST_NOTHING
    ∧ receive_map_result ST_NOTHING = ERR_TIMEOUT :=
  ⟨C10_unknown_taskid_timeout.1 [default] 5 (by decide),
    C10_unknown_taskid_timeout.2.2⟩

/-! ## C6 — final status of a completed send task -/

/-- C6: for a task found by `send_get_final_status` in state `ST_SEND_DONE`:
the result is `ERR_OK` when an ACK was requested and received; it is
`ERR_SEND_NO_ACK_RCVD` when an ACK was requested and never received; it is
the radio driver's last return code when no ACK was requested; and overall
the result is `ERR_OK` exactly when either an ACK was requested and
received, or no ACK was requested and the driver's last return code was
`ERR_OK`. -/
theorem C6_send_final_status (pool : List Task) (tid : Nat) (t : Task)
    (hfind : get_task_by_taskid pool tid = some t)
    (hdone : t.status = ST_SEND_DONE) :
    (t.need_ack = true → t.has_received_ack = true →
      send_get_final_status_ret pool tid = ERR_OK)
    ∧ (t.need_ack = true → t.has_received_ack = false →
      send_get_final_status_ret pool tid = ERR_SEND_NO_ACK_RCVD)
    ∧ (t.need_ack = false → send_get_final_status_ret pool tid = t.last_retcode)
    ∧ (send_get_final_status_ret pool tid = ERR_OK ↔
        ((t.need_ack = true ∧ t.has_received_ack = true)
          ∨ (t.need_ack = false ∧ t.last_retcode = ERR_OK))) := by
  unfold send_get_final_status_ret
  rw [hfind]
  simp only [hdone, ne_eq, not_true_eq_false, if_false]
  rcases hna : t.need_ack with _ | _
  · simp [ERR_OK]
  · rcases hha : t.has_received_ack with _ | _
    · simp [ERR_OK, ERR_SEND_NO_ACK_RCVD]
    · simp [ERR_OK]

/-- Witness for C6: a pool holding one completed needs-ACK task that did
receive its ACK; the blocking send reports `ERR_OK`. -/
theorem C6_send_final_status_witness :
    send_get_final_status_ret
      [{ sampleSendTask with status := ST_SEND_DONE, has_received_ack := true }] 1
      = ERR_OK :=
  (C6_send_final_status
    [{ sampleSendTask with status := ST_SEND_DONE, has_received_ack := true }] 1
    { sampleSendTask with status := ST_SEND_DONE, has_received_ack := true }
    (by decide) (by decide)).1 (by decide) (by decide)

/-! ## C4 — argument validation of `send_noblock` -/

/-- C4 counterexample: the claim asserts that violating
`(len == 0) ⇔ (payload == null)` in either direction yields
`ERR_SEND_BAD_ARGUMENTS` without creating a task.  With `len = 1` and a
null payload pointer, `send_noblock` instead creates a task and returns
`ERR_TASK_CREATED_OK` (only the direction `len == 0 ∧ payload ≠ null` is
tested by the code; the other direction is left to a debug-build assert
inside `prepare_for_sending`). -/
theorem C4_counterexample_null_data_nonzero_len :
    (send_noblock sampleEngine true true 5 none 1 false 100).1 = ERR_TASK_CREATED_OK
    ∧ (send_noblock sampleEngine true true 5 none 1 false 100).1 ≠ ERR_SEND_BAD_ARGUMENTS
    ∧ (send_noblock sampleEngine true true 5 none 1 false 100).2.2.task_count
        = sampleEngine.task_count + 1 := by
  decide

/-- C4 amended: `send_noblock` returns `ERR_SEND_DATA_LEN_ABOVE_LIMIT`
without any state change when `len` exceeds the maximum payload, and
`ERR_SEND_BAD_ARGUMENTS` without any state change when `len = 0` with a
non-null payload pointer; a non-zero `len` with a null pointer is NOT
rejected (see the counterexample). -/
theorem C4_error_paths_create_no_task (st : EngineState) (dst : Nat)
    (data : Option (List Nat)) (len : Nat) (ack : Bool) (now : Nat) :
    (len > st.max_payload_len →
      send_noblock st true true dst data len ack now
        = (ERR_SEND_DATA_LEN_ABOVE_LIMIT, none, st))
    ∧ (len ≤ st.max_payload_len → len = 0 → data ≠ none →
      send_noblock st true true dst data len ack now
        = (ERR_SEND_BAD_ARGUMENTS, none, st)) := by
  constructor
  · intro hlen
    unfold send_noblock
    simp [hlen]
  · intro hlen hzero hdata
    unfold send_noblock
    simp [Nat.not_lt.mpr hlen, hzero, hdata]

/-- Witness for C4's amended statement: oversized payload (11 > 10) and
zero-length with non-null pointer, on the sample engine. -/
theorem C4_error_paths_create_no_task_witness :
    send_noblock sampleEngine true true 5 (some (List.replicate 11 0)) 11 false 100
      = (ERR_SEND_DATA_LEN_ABOVE_LIMIT, none, sampleEngine)
    ∧ send_noblock sampleEngine true true 5 (some []) 0 false 100
      = (ERR_SEND_BAD_ARGUMENTS, none, sampleEngine) :=
  ⟨(C4_error_paths_create_no_task sampleEngine 5 (some (List.replicate 11 0)) 11 false 100).1
      (by decide),
    (C4_error_paths_create_no_task sampleEngine 5 (some []) 0 false 100).2
      (by decide) rfl (by decide)⟩

/-! ## C5 — the three retransmission schedules -/

/-- Characterization of the `ST_SEND` branch of `tev_wakeup`: whether a
transmission occurs, the returned status, and the next wake-up deadline. -/
theorem tev_wakeup_send_spec (t : Task) (spd rpd now sendRet : Nat)
    (hst : t.status = ST_SEND) :
    (tev_wakeup spd rpd now sendRet t).transmitted
        = (!t.need_ack
            || decide ((t.send_schedule_pos : Int) < (t.nb_send_schedules : Int) - 1))
    ∧ (tev_wakeup spd rpd now sendRet t).ret
        = (if t.send_schedule_pos + 1 < t.nb_send_schedules then ST_SEND else ST_SEND_DONE)
    ∧ (t.send_schedule_pos + 1 < t.nb_send_schedules →
        (tev_wakeup spd rpd now sendRet t).task.mtime_wakeup
          = t.mtime_ref + t.send_schedule_ptr.getD (t.send_schedule_pos + 1) 0) := by
  rcases hds : (!t.need_ack
      || decide ((t.send_schedule_pos : Int) < (t.nb_send_schedules : Int) - 1)) with _ | _
    <;> rcases hnext : decide (t.send_schedule_pos + 1 < t.nb_send_schedules) with _ | _
    <;> simp only [decide_eq_true_eq, decide_eq_false_iff_not] at hnext
    <;> unfold tev_wakeup
    <;> simp [hst, hds, hnext]

/-- C5: the three schedules are the named constants
`snd_sched = [0, 200, 550, 900]`, `snd_expack_sched = [0, 100, 450, 800,
900]` and `snd_repack_sched = [0]`; a `SEND` task's timer event transmits
at every entry except, for an ACK-expecting task, the last one (the listen
window, which only produces the transition to `ST_SEND_DONE`); for a
no-ACK task every entry, the last included, transmits; and the next
wake-up deadline is the task's reference timestamp plus the next schedule
entry (absolute offsets, not cumulative). -/
theorem C5_schedules (t : Task) (spd rpd now sendRet : Nat)
    (hst : t.status = ST_SEND) :
    snd_sched = [0, 200, 550, 900]
    ∧ snd_expack_sched = [0, 100, 450, 800, 900]
    ∧ snd_repack_sched = [0]
    ∧ (t.need_ack = true → t.nb_send_schedules = snd_expack_sched_len →
        ((tev_wakeup spd rpd now sendRet t).transmitted = true ↔
          t.send_schedule_pos < 4))
    ∧ (t.need_ack = false →
        (tev_wakeup spd rpd now sendRet t).transmitted = true)
    ∧ (t.send_schedule_pos + 1 < t.nb_send_schedules →
        (tev_wakeup spd rpd now sendRet t).ret = ST_SEND
        ∧ (tev_wakeup spd rpd now sendRet t).task.mtime_wakeup
            = t.mtime_ref + t.send_schedule_ptr.getD (t.send_schedule_pos + 1) 0)
    ∧ (t.send_schedule_pos + 1 ≥ t.nb_send_schedules →
        (tev_wakeup spd rpd now sendRet t).ret = ST_SEND_DONE) := by
  obtain ⟨htr, hret, hwk⟩ := tev_wakeup_send_spec t spd rpd now sendRet hst
  refine ⟨rfl, rfl, rfl, ?_, ?_, ?_, ?_⟩
  · intro hna hnb
    rw [htr, hna, hnb]
    simp only [snd_expack_sched_len, snd_expack_sched, List.length_cons, List.length_nil,
      Bool.not_true, Bool.false_or, decide_eq_true_eq]
    omega
  · intro hna
    rw [htr, hna]
    rfl
  · intro hpos
    exact ⟨by rw [hret, if_pos hpos], hwk hpos⟩
  · intro hpos
    rw [hret, if_neg (Nat.not_lt.mpr hpos)]

/-- A no-ACK variant of the sample send task, at the last schedule entry. -/
def noAckSampleTask : Task :=
  { sampleSendTask with
    need_ack := false
    send_schedule_pos := 3
    nb_send_schedules := snd_sched_len
    send_schedule_ptr := snd_sched }

/-- Witness for C5: the sample ACK-expecting task at schedule position 1
(transmits, next deadline `ref + 450`), at position 4 (the listen window:
no transmit, `ST_SEND_DONE`), and a no-ACK variant at the last position
(still transmits). -/
theorem C5_schedules_witness :
    ((tev_wakeup 1000 1000 100 0 sampleSendTask).transmitted = true
        ↔ sampleSendTask.send_schedule_pos < 4)
    ∧ (tev_wakeup 1000 1000 100 0 sampleSendTask).ret = ST_SEND
    ∧ (tev_wakeup 1000 1000 100 0 sampleSendTask).task.mtime_wakeup = 0 + 450
    ∧ (tev_wakeup 1000 1000 100 0
        { sampleSendTask with send_schedule_pos := 4 }).ret = ST_SEND_DONE
    ∧ (tev_wakeup 1000 1000 100 0 noAckSampleTask).transmitted = true := by
  refine ⟨(C5_schedules sampleSendTask 1000 1000 100 0 rfl).2.2.2.1 rfl rfl, ?_, ?_, ?_, ?_⟩
  · exact ((C5_schedules sampleSendTask 1000 1000 100 0 rfl).2.2.2.2.2.1 (by decide)).1
  · exact ((C5_schedules sampleSendTask 1000 1000 100 0 rfl).2.2.2.2.2.1 (by decide)).2
  · exact (C5_schedules { sampleSendTask with send_schedule_pos := 4 }
      1000 1000 100 0 rfl).2.2.2.2.2.2 (by decide)
  · exact (C5_schedules noAckSampleTask 1000 1000 100 0 rfl).2.2.2.2.1 rfl

/-! ## C1 — ACK matching in `tev_received` -/

/-- C1 counterexample: the claim states that an incoming ACK frame closes a
waiting SEND task exactly when BOTH the frame's source address and its
packet-id match the task's outgoing packet.  Here the ACK frame's source
(7) differs from the destination (5) of the task's outgoing packet, yet —
the packet-id matching — the frame is consumed, `has_received_ack` is set
and the task moves to `ST_SEND_DONE`: the source is never examined. -/
theorem C1_counterexample_source_not_checked :
    (tev_received 900 1000 100 sampleSendTask ackFrameWrongSrc false).consumed = true
    ∧ (tev_received 900 1000 100 sampleSendTask ackFrameWrongSrc false).ret = ST_SEND_DONE
    ∧ (tev_received 900 1000 100 sampleSendTask ackFrameWrongSrc false).task.has_received_ack
        = true
    ∧ ackFrameWrongSrc.header.src ≠ samplePkt.header.dst := by
  decide

/-- C1 amended: an incoming frame carrying the ACK flag is matched to a
SEND (or SEND_DONE) task that requested and has not yet received an ACK by
packet-id ONLY (the frame's source address is not examined).  Exactly on a
packet-id match the task marks `has_received_ack`, shrinks its buffer to
the header and consumes the frame, with `ST_SEND_DONE` as the resulting
state; otherwise the frame is left unconsumed and the task unchanged. -/
theorem C1_ack_matched_by_pktid_only (rda spd now : Nat) (tsk : Task) (pk : Packet)
    (seen : Bool) (tp : Packet) (hpk : tsk.pktkeeper = some tp)
    (hack : flags_opt pk.header.flags &&& FLAG_ACK ≠ 0) :
    ((tev_received rda spd now tsk pk seen).consumed = true ↔
      ((tsk.status = ST_SEND ∨ tsk.status = ST_SEND_DONE)
        ∧ tsk.need_ack = true ∧ tsk.has_received_ack = false
        ∧ tp.header.pktid = pk.header.pktid))
    ∧ (((tsk.status = ST_SEND ∨ tsk.status = ST_SEND_DONE)
        ∧ tsk.need_ack = true ∧ tsk.has_received_ack = false
        ∧ tp.header.pktid = pk.header.pktid) →
      (tev_received rda spd now tsk pk seen).task.has_received_ack = true
      ∧ (tev_received rda spd now tsk pk seen).task.pktkeeper
          = pkReduceToHeader (some tp)
      ∧ (tev_received rda spd now tsk pk seen).ret = ST_SEND_DONE)
    ∧ (¬((tsk.status = ST_SEND ∨ tsk.status = ST_SEND_DONE)
        ∧ tsk.need_ack = true ∧ tsk.has_received_ack = false
        ∧ tp.header.pktid = pk.header.pktid) →
      (tev_received rda spd now tsk pk seen).task = tsk
      ∧ (tev_received rda spd now tsk pk seen).ret = tsk.status
      ∧ (tev_received rda spd now tsk pk seen).consumed = false) := by
  have hpktid : pkHeaderPktid tsk.pktkeeper = tp.header.pktid := by
    rw [hpk]; rfl
  by_cases hm : (tsk.status = ST_SEND ∨ tsk.status = ST_SEND_DONE)
      ∧ tsk.need_ack = true ∧ tsk.has_received_ack = false
      ∧ tp.header.pktid = pk.header.pktid
  · have hm' : (tsk.status = ST_SEND ∨ tsk.status = ST_SEND_DONE)
        ∧ tsk.need_ack = true ∧ tsk.has_received_ack = false
        ∧ pkHeaderPktid tsk.pktkeeper = pk.header.pktid := by
      rw [hpktid]; exact hm
    unfold tev_received
    rw [if_pos hack, if_pos hm']
    by_cases hs : tsk.status = ST_SEND
    · refine ⟨by simp [hm], fun _ => ⟨?_, ?_, ?_⟩, fun hnot => absurd hm hnot⟩
        <;> simp [hs, hpk]
    · have hsd : tsk.status = ST_SEND_DONE := (hm.1).resolve_left hs
      refine ⟨by simp [hm], fun _ => ⟨?_, ?_, ?_⟩, fun hnot => absurd hm hnot⟩
        <;> simp [hs, hsd, hpk, ST_SEND, ST_SEND_DONE]
  · have hm' : ¬((tsk.status = ST_SEND ∨ tsk.status = ST_SEND_DONE)
        ∧ tsk.need_ack = true ∧ tsk.has_received_ack = false
        ∧ pkHeaderPktid tsk.pktkeeper = pk.header.pktid) := by
      rw [hpktid]; exact hm
    unfold tev_received
    rw [if_pos hack, if_neg hm']
    exact ⟨by simp [hm], fun h => absurd h hm, fun _ => ⟨rfl, rfl, rfl⟩⟩

/-- Witness for C1's amended statement: the matching ACK frame (source 7,
which the code ignores) closes the sample task. -/
theorem C1_ack_matched_by_pktid_only_witness :
    (tev_received 900 1000 100 sampleSendTask ackFrameWrongSrc true).task.has_received_ack
      = true
    ∧ (tev_received 900 1000 100 sampleSendTask ackFrameWrongSrc true).ret = ST_SEND_DONE :=
  ⟨((C1_ack_matched_by_pktid_only 900 1000 100 sampleSendTask ackFrameWrongSrc true
      samplePkt rfl (by decide)).2.1 (by decide)).1,
    ((C1_ack_matched_by_pktid_only 900 1000 100 sampleSendTask ackFrameWrongSrc true
      samplePkt rfl (by decide)).2.1 (by decide)).2.2⟩

/-! ## C3 — duplicate-cache observe operation -/

/-- C3: the failing input for the claim's eviction rule.  With the table
full of 10 live entries all refreshed at the current tick (age 0 for every
slot) and a frame from an 11th source, the scan finds neither the source,
nor a free slot, nor an "oldest" entry (only a strictly positive age can
set `oldest_entry_idx`).  The C code then executes
`cache_pktids[idx] = ...` with `idx == -1` — an out-of-bounds write — where
the specified behaviour is to install the new source in the slot with the
greatest age.  In the model the resolved install slot is `none` and no
entry of the table is replaced. -/
theorem C3_cache_eviction_out_of_bounds :
    fullFreshCache.length = PKTID_CACHE_SIZE
    ∧ fullFreshCache.all (fun e => e.used) = true
    ∧ (cache_scan fullFreshCache 10 7 100).2.src_found = false
    ∧ (cache_scan fullFreshCache 10 7 100).2.unused_idx = none
    ∧ (cache_scan fullFreshCache 10 7 100).2.oldest_idx = none
    ∧ cacheInstallIdx (cache_scan fullFreshCache 10 7 100).2 = none
    ∧ check_pktid_already_seen fullFreshCache 10 7 100 = (false, fullFreshCache) := by
  decide

/-! ## C7 — reception anomalies are dropped silently -/

/-- A fold step that preserves a predicate preserves it along `foldl`. -/
theorem foldl_preserves {α β : Type} {P : β → Prop} (f : β → α → β)
    (hf : ∀ b a, P b → P (f b a)) :
    ∀ (l : List α) (b : β), P b → P (l.foldl f b)
  | [], _, hb => hb
  | a :: l, b, hb => foldl_preserves f hf l (f b a) (hf b a hb)

/-- `task_create` never touches the duplicate cache. -/
theorem task_create_cache_pktids (st : EngineState) (status now : Nat)
    (st1 : EngineState) (idx : Nat) (h : task_create st status now = some (st1, idx)) :
    st1.cache_pktids = st.cache_pktids := by
  unfold task_create at h
  split at h
  · exact absurd h (by simp)
  · split at h
    · exact absurd h (by simp)
    · simp only [Option.some.injEq, Prod.mk.injEq] at h
      obtain ⟨h1, -⟩ := h
      rw [← h1]

/-- `send_ack_noblock` never touches the duplicate cache. -/
theorem send_ack_noblock_cache_pktids (st : EngineState) (h : Header) (now : Nat) :
    (send_ack_noblock st h now).cache_pktids = st.cache_pktids := by
  unfold send_ack_noblock
  rcases htc : task_create st ST_SEND now with _ | ⟨st1, idx⟩
  · rfl
  · have := task_create_cache_pktids st ST_SEND now st1 idx htc
    simpa [modifyTask] using this

/-- `send_ack` never touches the duplicate cache. -/
theorem send_ack_cache_pktids (st : EngineState) (tsk : Task) (now : Nat) :
    (send_ack st tsk now).cache_pktids = st.cache_pktids := by
  simp only [send_ack]
  split
  · split
    · rfl
    · exact send_ack_noblock_cache_pktids ..
  · rfl

/-- One iteration of the task loop never touches the duplicate cache. -/
theorem taskStep_cache_pktids (now sendRet : Nat) (ts : TickState) (i : Nat) :
    (taskStep now sendRet ts i).st.cache_pktids = ts.st.cache_pktids := by
  rcases h : ts.st.tasks[i]? with _ | tsk
    <;> rcases hg : ts.gotPkt with _ | pk
    <;> simp only [taskStep, h, hg]
    <;> repeat' split
  all_goals simp [send_ack_cache_pktids]

/-- C7: a drained frame is accepted exactly when the buffer is non-null,
`header.len ≤ max_payload` and `6 + header.len` equals the number of bytes
received; a frame failing this validation makes the tick behave exactly as
a tick in which no frame arrived at all — in particular the duplicate cache
is not consulted (a no-frame tick leaves it untouched) and no task sees the
frame. -/
theorem C7_invalid_frames_dropped :
    (∀ (maxpl : Nat) (p : Packet) (nb : Nat),
      check_rcvd_pkt_is_ok maxpl (some p) nb = true ↔
        (p.header.len ≤ maxpl ∧ HEADER_SIZE + p.header.len = nb))
    ∧ (∀ (maxpl nb : Nat), check_rcvd_pkt_is_ok maxpl none nb = false)
    ∧ (∀ (st : EngineState) (hasInit hasReceive intr : Bool) (p : Packet)
        (nb now sendRet : Nat),
      check_rcvd_pkt_is_ok st.max_payload_len (some p) nb = false →
      do_events st hasInit hasReceive intr (some (p, nb)) now sendRet
        = do_events st hasInit hasReceive intr none now sendRet)
    ∧ (∀ (st : EngineState) (hasInit hasReceive intr : Bool) (now sendRet : Nat),
      (do_events st hasInit hasReceive intr none now sendRet).cache_pktids
        = st.cache_pktids) := by
  refine ⟨?_, fun _ _ => rfl, ?_, ?_⟩
  · intro maxpl p nb
    simp only [check_rcvd_pkt_is_ok, pkGetPktLen]
    constructor
    · intro h
      split at h
      · exact absurd h (by simp)
      · rename_i hle
        exact ⟨Nat.not_lt.mp hle, by simpa using h⟩
    · rintro ⟨h1, h2⟩
      rw [if_neg (Nat.not_lt.mpr h1)]
      simpa using h2
  · intro st hasInit hasReceive intr p nb now sendRet hbad
    unfold do_events
    rcases hasInit with _ | _
    · rfl
    · simp only [hbad, Bool.false_eq_true, if_false, ite_self]
  · intro st hasInit hasReceive intr now sendRet
    rcases hasInit with _ | _
    · rfl
    · show (do_events st true hasReceive intr none now sendRet).cache_pktids = _
      unfold do_events
      simp only [Bool.not_true, Bool.false_eq_true, if_false, ite_self]
      have hstep : ∀ (b : TickState) (a : Nat),
          b.st.cache_pktids = st.cache_pktids →
          (taskStep now sendRet b a).st.cache_pktids = st.cache_pktids :=
        fun b a hb => by rw [taskStep_cache_pktids]; exact hb
      have hfold := @foldl_preserves Nat TickState
        (fun tsx => tsx.st.cache_pktids = st.cache_pktids)
        (taskStep now sendRet) hstep (List.range st.tasks.length)
      split
      · exact hfold _ rfl
      · exact hfold _ rfl

/-! ## C8 — at most one duplicate-cache entry per source -/

/-- The per-entry effect of one `check_pktid_already_seen` scan iteration:
expiry sweep, then — for the live entry matching `src` — timestamp refresh
and packet-id bookkeeping.  Entries not matching `src` are only subject to
the expiry sweep. -/
def entryUpdate (src pktid tref : Nat) (e : CacheEntry) : CacheEntry :=
  let e1 := entryExpire tref e
  if e1.used then
    if e1.src == src then
      if e1.last_pktid_seen == pktid then { e1 with mtime := tref }
      else { e1 with mtime := tref, last_pktid_seen := pktid }
    else e1
  else e1

theorem entryExpire_src (tref : Nat) (e : CacheEntry) :
    (entryExpire tref e).src = e.src := by
  unfold entryExpire; split <;> rfl

theorem entryExpire_used_mono (tref : Nat) (e : CacheEntry)
    (h : (entryExpire tref e).used = true) : e.used = true := by
  unfold entryExpire at h
  split at h
  · exact absurd h (by simp)
  · exact h

theorem entryUpdate_src (src pktid tref : Nat) (e : CacheEntry) :
    (entryUpdate src pktid tref e).src = e.src := by
  simp only [entryUpdate]
  split
  · split
    · split <;> exact entryExpire_src ..
    · exact entryExpire_src ..
  · exact entryExpire_src ..

theorem entryUpdate_used (src pktid tref : Nat) (e : CacheEntry) :
    (entryUpdate src pktid tref e).used = (entryExpire tref e).used := by
  simp only [entryUpdate]
  split
  · split
    · split <;> rfl
    · rfl
  · rfl

/-- The scan rewrites the table entrywise by `entryUpdate`. -/
theorem cacheScanLoop_entries (src pktid tref : Nat) :
    ∀ (l : List CacheEntry) (i : Nat) (acc : ScanAcc),
      (cacheScanLoop src pktid tref i acc l).1
        = l.map (entryUpdate src pktid tref) := by
  intro l
  induction l with
  | nil => intro i acc; rfl
  | cons e rest ih =>
    intro i acc
    simp only [cacheScanLoop, List.map_cons]
    rcases hused : (entryExpire tref e).used with _ | _
    · simp only [hused, Bool.not_false, if_true, ih]
      simp [entryUpdate, hused]
    · simp only [hused, Bool.not_true, Bool.false_eq_true, if_false]
      rcases hsrc : ((entryExpire tref e).src == src) with _ | _
      · simp only [hsrc, Bool.false_eq_true, if_false, ih]
        simp [entryUpdate, hused, hsrc]
      · simp only [hsrc, if_true, ih]
        simp [entryUpdate, hused, hsrc]

/-- The scan reports `src_found` exactly when some entry is live after the
expiry sweep and carries the probed source. -/
theorem cacheScanLoop_src_found (src pktid tref : Nat) :
    ∀ (l : List CacheEntry) (i : Nat) (acc : ScanAcc),
      (cacheScanLoop src pktid tref i acc l).2.src_found
        = (acc.src_found
            || l.any (fun e => (entryExpire tref e).used && ((entryExpire tref e).src == src))) := by
  intro l
  induction l with
  | nil => intro i acc; simp [cacheScanLoop]
  | cons e rest ih =>
    intro i acc
    simp only [cacheScanLoop, List.any_cons]
    rcases hused : (entryExpire tref e).used with _ | _
    · simp only [hused, Bool.not_false, if_true, ih]
      simp
    · simp only [hused, Bool.not_true, Bool.false_eq_true, if_false]
      rcases hsrc : ((entryExpire tref e).src == src) with _ | _
      · simp only [hsrc, Bool.false_eq_true, if_false, ih]
        split <;> simp
      · simp only [hsrc, if_true, ih]
        simp

theorem cache_scan_entries (cache : List CacheEntry) (src pktid tref : Nat) :
    (cache_scan cache src pktid tref).1 = cache.map (entryUpdate src pktid tref) :=
  cacheScanLoop_entries src pktid tref cache 0 ScanAcc.init

theorem cache_scan_src_found (cache : List CacheEntry) (src pktid tref : Nat) :
    (cache_scan cache src pktid tref).2.src_found
      = cache.any (fun e => (entryExpire tref e).used && ((entryExpire tref e).src == src)) := by
  rw [cache_scan, cacheScanLoop_src_found]
  rfl

/-- "At most one in-use entry per source": any two distinct entries that are
both in use carry different source addresses. -/
def EntryDistinct (a b : CacheEntry) : Prop :=
  a.used = true → b.used = true → a.src ≠ b.src

/-- The duplicate-cache invariant. -/
def cacheInv (l : List CacheEntry) : Prop := l.Pairwise EntryDistinct

/-- Executable form of the invariant, for evaluation on concrete tables. -/
def cacheInvB : List CacheEntry → Bool
  | [] => true
  | e :: rest =>
    (rest.all fun x => !e.used || !x.used || !(e.src == x.src)) && cacheInvB rest

theorem entryDistinct_bool (e a : CacheEntry) :
    (!e.used || !a.used || !(e.src == a.src)) = true ↔ EntryDistinct e a := by
  unfold EntryDistinct
  by_cases h1 : e.used = true
    <;> by_cases h2 : a.used = true
    <;> by_cases h3 : e.src = a.src
    <;> simp [h1, h2, h3]

theorem cacheInvB_iff : ∀ (l : List CacheEntry), cacheInvB l = true ↔ cacheInv l
  | [] => by simp [cacheInvB, cacheInv]
  | e :: rest => by
    unfold cacheInvB
    rw [Bool.and_eq_true, List.all_eq_true, cacheInvB_iff rest]
    unfold cacheInv
    rw [List.pairwise_cons]
    constructor
    · rintro ⟨h1, h2⟩
      exact ⟨fun a ha => (entryDistinct_bool e a).mp (h1 a ha), h2⟩
    · rintro ⟨h1, h2⟩
      exact ⟨fun a ha => (entryDistinct_bool e a).mpr (h1 a ha), h2⟩

/-- `entryUpdate` (expiry + refresh) preserves the invariant: it never
changes a source and never revives a freed slot. -/
theorem cacheInv_map (src pktid tref : Nat) (l : List CacheEntry)
    (h : cacheInv l) : cacheInv (l.map (entryUpdate src pktid tref)) := by
  refine List.Pairwise.map _ ?_ h
  intro a b hab ha hb
  rw [entryUpdate_src, entryUpdate_src]
  refine hab ?_ ?_
  · exact entryExpire_used_mono tref a (by rw [← entryUpdate_used src pktid tref a]; exact ha)
  · exact entryExpire_used_mono tref b (by rw [← entryUpdate_used src pktid tref b]; exact hb)

/-- Installing an entry over slot `idx` preserves the invariant provided no
other in-use entry carries the installed source. -/
theorem cacheInv_set (l : List CacheEntry) (idx : Nat) (x : CacheEntry)
    (h : cacheInv l) (hx : ∀ e ∈ l, e.used = true → e.src ≠ x.src) :
    cacheInv (l.set idx x) := by
  unfold cacheInv at *
  rw [List.pairwise_iff_getElem] at *
  intro i j hi hj hij
  rw [List.length_set] at hi hj
  by_cases hi' : idx = i <;> by_cases hj' : idx = j
  · omega
  · subst hi'
    rw [List.getElem_set_self, List.getElem_set_ne hj']
    intro hxu hju
    exact fun hsrc => hx (l[j]) (l.getElem_mem hj) hju (by rw [← hsrc])
  · subst hj'
    rw [List.getElem_set_self, List.getElem_set_ne hi']
    intro hiu hxu
    exact hx (l[i]) (l.getElem_mem hi) hiu
  · rw [List.getElem_set_ne hi', List.getElem_set_ne hj']
    exact h i j hi hj hij

/-- When the scan does not find the source, no live entry of the scanned
table carries it. -/
theorem cache_scan_not_found (cache : List CacheEntry) (src pktid tref : Nat)
    (h : (cache_scan cache src pktid tref).2.src_found = false) :
    ∀ e ∈ (cache_scan cache src pktid tref).1, e.used = true → e.src ≠ src := by
  intro e he hu heq
  rw [cache_scan_entries] at he
  obtain ⟨a, ha, rfl⟩ := List.mem_map.mp he
  rw [cache_scan_src_found] at h
  have hmem : ((entryExpire tref a).used && ((entryExpire tref a).src == src)) = true := by
    rw [Bool.and_eq_true]
    constructor
    · rw [← entryUpdate_used src pktid tref a]; exact hu
    · rw [beq_iff_eq, entryExpire_src]
      rw [entryUpdate_src] at heq
      exact heq
  have hany : (cache.any
      fun e => (entryExpire tref e).used && ((entryExpire tref e).src == src)) = true :=
    List.any_eq_true.mpr ⟨a, ha, hmem⟩
  rw [h] at hany
  exact absurd hany (by simp)

/-- Every observe operation preserves the invariant. -/
theorem check_pktid_preserves_cacheInv (cache : List CacheEntry)
    (src pktid tref : Nat) (h : cacheInv cache) :
    cacheInv (check_pktid_already_seen cache src pktid tref).2 := by
  have hmap : cacheInv (cache_scan cache src pktid tref).1 := by
    rw [cache_scan_entries]
    exact cacheInv_map src pktid tref cache h
  unfold check_pktid_already_seen
  rcases hsf : (cache_scan cache src pktid tref).2.src_found with _ | _
  · simp only [hsf, Bool.false_eq_true, if_false]
    rcases hidx : cacheInstallIdx (cache_scan cache src pktid tref).2 with _ | idx
    · simpa [hidx] using hmap
    · simp only [hidx]
      exact cacheInv_set _ idx _ hmap
        (fun e he hu => cache_scan_not_found cache src pktid tref hsf e he hu)
  · simpa [hsf] using hmap

/-- C8: every observe operation (`check_pktid_already_seen`) preserves "at
most one in-use cache entry per source", and every cache state reachable
from the initial (all-free) table through any sequence of observe
operations satisfies it. -/
theorem C8_cache_at_most_one_entry_per_source :
    (∀ (cache : List CacheEntry) (src pktid tref : Nat), cacheInv cache →
      cacheInv (check_pktid_already_seen cache src pktid tref).2)
    ∧ (∀ ops : List (Nat × Nat × Nat),
      cacheInv (ops.foldl
        (fun c o => (check_pktid_already_seen c o.1 o.2.1 o.2.2).2) initCache)) := by
  refine ⟨check_pktid_preserves_cacheInv, ?_⟩
  intro ops
  refine @foldl_preserves (Nat × Nat × Nat) (List CacheEntry) cacheInv _ ?_ ops initCache ?_
  · intro c o hc
    exact check_pktid_preserves_cacheInv c o.1 o.2.1 o.2.2 hc
  · exact (cacheInvB_iff initCache).mp (by decide)

/-- Witness for C8: one observe step on the sample full table keeps the
invariant (hypothesis discharged on the concrete all-distinct table). -/
theorem C8_cache_at_most_one_entry_per_source_witness :
    cacheInv (check_pktid_already_seen fullFreshCache 3 9 150).2 :=
  C8_cache_at_most_one_entry_per_source.1 fullFreshCache 3 9 150
    ((cacheInvB_iff fullFreshCache).mp (by decide))

/-! ## C9 — non-passive tasks always hold a timer subscription -/

/-- The invariant of §8.1 of the spec: a task in any state other than
`RECEIVE`, `NOTHING` or `FINISHED` has its wake-up event flag set. -/
def taskInv (t : Task) : Prop :=
  t.status ≠ ST_RECEIVE → t.status ≠ ST_NOTHING → t.status ≠ ST_FINISHED →
    t.evtsub_wakeup = true

theorem taskInv_initialize (t : Task) : taskInv ( task_initialize t) :=
  fun _ h _ => absurd rfl h

/-- Committing status `r` keeps the invariant as soon as the mutated task
has its wake-up flag set whenever `r` is a non-passive status. -/
theorem taskInv_commit (t : Task) (r : Nat)
    (h : r ≠ ST_RECEIVE → r ≠ ST_NOTHING → r ≠ ST_FINISHED → t.evtsub_wakeup = true) :
    taskInv (task_commit t r) := by
  unfold task_commit
  split
  · exact taskInv_initialize t
  · intro h1 h2 h3
    exact h (by simpa using h1) (by simpa using h2) (by simpa using h3)

/-- Re-committing the unchanged status preserves the invariant. -/
theorem task_commit_self (t : Task) (h : taskInv t) : taskInv (task_commit t t.status) :=
  taskInv_commit t t.status h

/-- Frame delivery (`tev_received` followed by the status commit of
`do_events`) preserves the invariant. -/
theorem tev_received_taskInv (rda spd now : Nat) (t : Task) (pk : Packet)
    (seen : Bool) (h : taskInv t) :
    taskInv (task_commit (tev_received rda spd now t pk seen).task
      (tev_received rda spd now t pk seen).ret) := by
  by_cases hACK : flags_opt pk.header.flags &&& FLAG_ACK ≠ 0
  · by_cases hm : (t.status = ST_SEND ∨ t.status = ST_SEND_DONE)
        ∧ t.need_ack = true ∧ t.has_received_ack = false
        ∧ pkHeaderPktid t.pktkeeper = pk.header.pktid
    · have hw : t.evtsub_wakeup = true := by
        rcases hm.1 with hs | hs
          <;> exact h (by rw [hs]; decide) (by rw [hs]; decide) (by rw [hs]; decide)
      refine taskInv_commit _ _ (fun _ _ _ => ?_)
      simp only [tev_received]
      rw [if_pos hACK, if_pos hm]
      by_cases hsSend : t.status = ST_SEND <;> simp [hsSend, hw]
    · have hdef : tev_received rda spd now t pk seen = ⟨t, t.status, false, false⟩ := by
        simp only [tev_received]
        rw [if_pos hACK, if_neg hm]
      rw [hdef]
      exact task_commit_self t h
  · by_cases hrcv : t.status = ST_RECEIVE ∧ seen = false
    · -- fresh reception: RECEIVE → RECEIVE_DATA_AVAILABLE, timer armed
      refine taskInv_commit _ _ (fun _ _ _ => ?_)
      simp only [tev_received]
      rw [if_neg hACK, if_pos hrcv]
    · by_cases hda : t.status = ST_RECEIVE_DATA_AVAILABLE
          ∨ t.status = ST_RECEIVE_DATA_RETRIEVED
      · by_cases hmatch : pkHeaderPktid t.pktkeeper = pk.header.pktid
            ∧ pkHeaderSrc t.pktkeeper = pk.header.src
        · have hdef : tev_received rda spd now t pk seen
              = ⟨t, t.status, true, decide (t.status = ST_RECEIVE_DATA_RETRIEVED)⟩ := by
            simp only [tev_received]
            rw [if_neg hACK, if_neg hrcv, if_pos hda, if_pos hmatch]
          rw [hdef]
          exact task_commit_self t h
        · have hdef : tev_received rda spd now t pk seen = ⟨t, t.status, false, false⟩ := by
            simp only [tev_received]
            rw [if_neg hACK, if_neg hrcv, if_pos hda, if_neg hmatch]
          rw [hdef]
          exact task_commit_self t h
      · have hdef : tev_received rda spd now t pk seen = ⟨t, t.status, false, false⟩ := by
          simp only [tev_received]
          rw [if_neg hACK, if_neg hrcv, if_neg hda]
        rw [hdef]
        exact task_commit_self t h

/-- `tev_received` on its own (before the commit) also preserves the
invariant: it never changes the stored status and only ever sets the
wake-up flag. -/
theorem tev_received_task_taskInv (rda spd now : Nat) (t : Task) (pk : Packet)
    (seen : Bool) (h : taskInv t) :
    taskInv (tev_received rda spd now t pk seen).task := by
  by_cases hACK : flags_opt pk.header.flags &&& FLAG_ACK ≠ 0
  · by_cases hm : (t.status = ST_SEND ∨ t.status = ST_SEND_DONE)
        ∧ t.need_ack = true ∧ t.has_received_ack = false
        ∧ pkHeaderPktid t.pktkeeper = pk.header.pktid
    · have hw : t.evtsub_wakeup = true := by
        rcases hm.1 with hs | hs
          <;> exact h (by rw [hs]; decide) (by rw [hs]; decide) (by rw [hs]; decide)
      intro h1 h2 h3
      simp only [tev_received]
      rw [if_pos hACK, if_pos hm]
      by_cases hsSend : t.status = ST_SEND <;> simp [hsSend, hw]
    · have hdef : tev_received rda spd now t pk seen = ⟨t, t.status, false, false⟩ := by
        simp only [tev_received]
        rw [if_pos hACK, if_neg hm]
      rw [hdef]
      exact h
  · by_cases hrcv : t.status = ST_RECEIVE ∧ seen = false
    · intro h1 h2 h3
      simp only [tev_received]
      rw [if_neg hACK, if_pos hrcv]
    · by_cases hda : t.status = ST_RECEIVE_DATA_AVAILABLE
          ∨ t.status = ST_RECEIVE_DATA_RETRIEVED
      · by_cases hmatch : pkHeaderPktid t.pktkeeper = pk.header.pktid
            ∧ pkHeaderSrc t.pktkeeper = pk.header.src
        · have hdef : tev_received rda spd now t pk seen
              = ⟨t, t.status, true, decide (t.status = ST_RECEIVE_DATA_RETRIEVED)⟩ := by
            simp only [tev_received]
            rw [if_neg hACK, if_neg hrcv, if_pos hda, if_pos hmatch]
          rw [hdef]
          exact h
        · have hdef : tev_received rda spd now t pk seen = ⟨t, t.status, false, false⟩ := by
            simp only [tev_received]
            rw [if_neg hACK, if_neg hrcv, if_pos hda, if_neg hmatch]
          rw [hdef]
          exact h
      · have hdef : tev_received rda spd now t pk seen = ⟨t, t.status, false, false⟩ := by
          simp only [tev_received]
          rw [if_neg hACK, if_neg hrcv, if_neg hda]
        rw [hdef]
        exact h

/-- Timer delivery (`tev_wakeup` followed by the status commit) preserves
the invariant. -/
theorem tev_wakeup_taskInv (spd rpd now sendRet : Nat) (t : Task) (h : taskInv t) :
    taskInv (task_commit (tev_wakeup spd rpd now sendRet t).task
      (tev_wakeup spd rpd now sendRet t).ret) := by
  by_cases hs : t.status = ST_SEND
  · -- ST_SEND: retransmission bookkeeping never clears the subscription
    have hw : t.evtsub_wakeup = true :=
      h (by rw [hs]; decide) (by rw [hs]; decide) (by rw [hs]; decide)
    refine taskInv_commit _ _ (fun _ _ _ => ?_)
    rcases hds : (!t.need_ack
        || decide ((t.send_schedule_pos : Int) < (t.nb_send_schedules : Int) - 1)) with _ | _
      <;> rcases hnext : decide (t.send_schedule_pos + 1 < t.nb_send_schedules) with _ | _
      <;> simp only [decide_eq_true_eq, decide_eq_false_iff_not] at hnext
      <;> unfold tev_wakeup
      <;> simp [hs, hds, hnext, hw]
  · by_cases h2 : t.status = ST_SEND_DONE
    · have hdef : tev_wakeup spd rpd now sendRet t = ⟨t, ST_FINISHED, false⟩ := by
        unfold tev_wakeup
        rw [if_neg hs, if_pos h2]
      rw [hdef]
      exact taskInv_commit _ _ (fun _ _ hx => absurd rfl hx)
    · by_cases h3 : t.status = ST_RECEIVE_DATA_RETRIEVED ∨ t.status = ST_RECEIVE_TIMEDOUT
      · have hdef : tev_wakeup spd rpd now sendRet t = ⟨t, ST_FINISHED, false⟩ := by
          unfold tev_wakeup
          rw [if_neg hs, if_neg h2, if_pos h3]
        rw [hdef]
        exact taskInv_commit _ _ (fun _ _ hx => absurd rfl hx)
      · by_cases h4 : t.status = ST_RECEIVE_DATA_AVAILABLE
        · have hdef : tev_wakeup spd rpd now sendRet t
              = ⟨data_retrieved_post rpd t, ST_RECEIVE_TIMEDOUT, false⟩ := by
            unfold tev_wakeup
            rw [if_neg hs, if_neg h2, if_neg h3, if_pos h4]
          rw [hdef]
          exact taskInv_commit _ _ (fun _ _ _ => rfl)
        · by_cases h5 : t.status = ST_RECEIVE
          · have hdef : tev_wakeup spd rpd now sendRet t
                = ⟨{ t with
                      evtsub_wakeup := true
                      mtime_wakeup := t.mtime_ref + DEFAULT_RECEIVE_TIMEOUT_DELAY },
                    ST_RECEIVE_TIMEDOUT, false⟩ := by
              unfold tev_wakeup
              rw [if_neg hs, if_neg h2, if_neg h3, if_neg h4, if_pos h5]
            rw [hdef]
            exact taskInv_commit _ _ (fun _ _ _ => rfl)
          · have hdef : tev_wakeup spd rpd now sendRet t = ⟨t, ST_NOTHING, false⟩ := by
              unfold tev_wakeup
              rw [if_neg hs, if_neg h2, if_neg h3, if_neg h4, if_neg h5]
            rw [hdef]
            exact taskInv_commit _ _ (fun _ hx _ => absurd rfl hx)

/-- Data retrieval preserves the invariant (the purge timer is armed). -/
theorem data_retrieve_taskInv (rpd buf_len : Nat) (t : Task) (h : taskInv t) :
    taskInv (data_retrieve_task rpd buf_len t).task := by
  unfold data_retrieve_task
  split
  · exact h
  · exact fun _ _ _ => rfl

/-- `send_get_final_status` arms the timer; the invariant is preserved. -/
theorem send_get_final_status_taskInv (now : Nat) (t : Task) :
    taskInv (send_get_final_status_task now t) :=
  fun _ _ _ => rfl

/-- The invariant over the whole task pool. -/
def poolInv (l : List Task) : Prop :=
  ∀ (i : Nat) (hi : i < l.length), taskInv (l.get ⟨i, hi⟩)

theorem poolInv_set (l : List Task) (i : Nat) (x : Task)
    (hl : poolInv l) (hx : taskInv x) : poolInv (l.set i x) := by
  intro j hj
  rw [List.length_set] at hj
  rcases eq_or_ne i j with hij | hij
  · subst hij
    simpa [List.get_eq_getElem, List.getElem_set_self] using hx
  · have := hl j hj
    simpa [List.get_eq_getElem, List.getElem_set_ne hij] using this

/-- Overwriting the same slot twice: only the final value matters. -/
theorem poolInv_set_set (l : List Task) (i : Nat) (x y : Task)
    (hl : poolInv l) (hy : taskInv y) : poolInv ((l.set i x).set i y) := by
  rw [List.set_set]
  exact poolInv_set l i y hl hy

/-- The pool produced by a successful `task_create`: the first free slot is
overwritten with the freshly initialized task. -/
theorem task_create_tasks (st : EngineState) (status now : Nat)
    (st1 : EngineState) (idx : Nat) (h : task_create st status now = some (st1, idx)) :
    st1.tasks = st.tasks.set idx
      (task_create_fields (st.tasks.getD idx default) ((st.last_taskid + 1) % 65536)
        status now) := by
  unfold task_create at h
  split at h
  · exact absurd h (by simp)
  · split at h
    · exact absurd h (by simp)
    · rename_i idx0 hfind
      simp only [Option.some.injEq, Prod.mk.injEq] at h
      obtain ⟨h1, h2⟩ := h
      rw [← h1, ← h2]

/-- Task creation by `send_ack_noblock` preserves the pool invariant: the
new ACK task is timer-subscribed from birth. -/
theorem send_ack_noblock_poolInv (st : EngineState) (hdr : Header) (now : Nat)
    (h : poolInv st.tasks) : poolInv (send_ack_noblock st hdr now).tasks := by
  unfold send_ack_noblock
  rcases htc : task_create st ST_SEND now with _ | ⟨st1, idx⟩
  · exact h
  · have htasks := task_create_tasks st ST_SEND now st1 idx htc
    simp only [modifyTask]
    rw [htasks]
    exact poolInv_set_set _ _ _ _ h (fun _ _ _ => rfl)

/-- `send_ack` preserves the pool invariant. -/
theorem send_ack_poolInv (st : EngineState) (tsk : Task) (now : Nat)
    (h : poolInv st.tasks) : poolInv (send_ack st tsk now).tasks := by
  simp only [send_ack]
  split
  · split
    · exact h
    · exact send_ack_noblock_poolInv _ _ _ h
  · exact h

/-- Task creation by `send_noblock` preserves the pool invariant: the new
SEND task is timer-subscribed from birth. -/
theorem send_noblock_poolInv (st : EngineState) (hasInit hasSend : Bool)
    (dst : Nat) (data : Option (List Nat)) (len : Nat) (ack : Bool) (now : Nat)
    (h : poolInv st.tasks) :
    poolInv (send_noblock st hasInit hasSend dst data len ack now).2.2.tasks := by
  unfold send_noblock
  split
  · exact h
  split
  · exact h
  split
  · exact h
  split
  · exact h
  rcases htc : task_create st ST_SEND now with _ | ⟨st1, idx⟩
  · exact h
  · have htasks := task_create_tasks st ST_SEND now st1 idx htc
    simp only [modifyTask]
    rw [htasks]
    exact poolInv_set_set _ _ _ _ h (fun _ _ _ => rfl)

/-- Task creation by `receive_noblock` preserves the pool invariant: the
new task either starts in `ST_RECEIVE` (no timer needed) or, with a
configured timeout, is timer-subscribed. -/
theorem receive_noblock_poolInv (st : EngineState) (hasInit hasReceive : Bool)
    (timeout : Option Nat) (now : Nat) (h : poolInv st.tasks) :
    poolInv (receive_noblock st hasInit hasReceive timeout now).2.2.tasks := by
  unfold receive_noblock
  split
  · exact h
  split
  · exact h
  rcases htc : task_create st ST_RECEIVE now with _ | ⟨st1, idx⟩
  · exact h
  · have htasks := task_create_tasks st ST_RECEIVE now st1 idx htc
    simp only [modifyTask]
    rw [htasks]
    refine poolInv_set_set _ _ _ _ h ?_
    -- the slot read back is the created ST_RECEIVE task (or, out of
    -- bounds, the default ST_NOTHING task); both satisfy the invariant
    rcases timeout with _ | d
    · rcases hlen : decide (idx < st.tasks.length) with _ | _
        <;> simp only [decide_eq_true_eq, decide_eq_false_iff_not] at hlen
      · rw [List.set_eq_of_length_le (Nat.not_lt.mp hlen),
          List.getD_eq_default _ _ (Nat.not_lt.mp hlen)]
        intro _ hx _
        exact absurd rfl hx
      · rw [List.getD_eq_getElem _ _ (by simpa using hlen), List.getElem_set_self]
        intro hx _ _
        exact absurd rfl hx
    · exact fun _ _ _ => rfl

/-- Status commit of a non-`FINISHED` `tev_received` outcome. -/
theorem tev_received_commitInv (rda spd now : Nat) (t : Task) (pk : Packet)
    (seen : Bool) (ht : taskInv t)
    (hfin : ¬ (tev_received rda spd now t pk seen).ret = ST_FINISHED) :
    taskInv { (tev_received rda spd now t pk seen).task with
              status := (tev_received rda spd now t pk seen).ret } := by
  have hc := tev_received_taskInv rda spd now t pk seen ht
  rwa [task_commit, if_neg hfin] at hc

/-- Status commit of a non-`FINISHED` `tev_wakeup` outcome. -/
theorem tev_wakeup_commitInv (spd rpd now sendRet : Nat) (t : Task) (ht : taskInv t)
    (hfin : ¬ (tev_wakeup spd rpd now sendRet t).ret = ST_FINISHED) :
    taskInv { (tev_wakeup spd rpd now sendRet t).task with
              status := (tev_wakeup spd rpd now sendRet t).ret } := by
  have hc := tev_wakeup_taskInv spd rpd now sendRet t ht
  rwa [task_commit, if_neg hfin] at hc

/-- One iteration of the `do_events` task loop preserves the pool
invariant. -/
theorem taskStep_poolInv (now sendRet : Nat) (ts : TickState) (i : Nat)
    (h : poolInv ts.st.tasks) : poolInv (taskStep now sendRet ts i).st.tasks := by
  rcases hget : ts.st.tasks[i]? with _ | tsk
  · simpa [taskStep, hget] using h
  · have hi : i < ts.st.tasks.length := by
      by_contra hcon
      rw [List.getElem?_eq_none (Nat.not_lt.mp hcon)] at hget
      exact absurd hget (by simp)
    have heq : ts.st.tasks[i] = tsk := by
      rw [List.getElem?_eq_getElem hi] at hget
      exact Option.some.inj hget
    have htsk : taskInv tsk := by
      have hh := h i hi
      rwa [List.get_eq_getElem, heq] at hh
    rcases hg : ts.gotPkt with _ | pk
      <;> simp only [taskStep, hget, hg]
      <;> repeat' split
    all_goals first
      | exact poolInv_set _ _ _ h ( taskInv_initialize _)
      | exact poolInv_set _ _ _ (send_ack_poolInv _ _ _ h) ( taskInv_initialize _)
      | exact poolInv_set _ _ _ h htsk
      | exact poolInv_set _ _ _ (send_ack_poolInv _ _ _ h) htsk
      | (rename_i hfin
         first
          | exact poolInv_set _ _ _ h (tev_wakeup_commitInv _ _ _ _ _ htsk hfin)
          | exact poolInv_set _ _ _ h (tev_wakeup_commitInv _ _ _ _ _
              (tev_received_task_taskInv _ _ _ _ _ _ htsk) hfin)
          | exact poolInv_set _ _ _ h (tev_received_commitInv _ _ _ _ _ _ htsk hfin)
          | exact poolInv_set _ _ _ (send_ack_poolInv _ _ _ h)
              (tev_wakeup_commitInv _ _ _ _ _
                (tev_received_task_taskInv _ _ _ _ _ _ htsk) hfin)
          | exact poolInv_set _ _ _ (send_ack_poolInv _ _ _ h)
              (tev_received_commitInv _ _ _ _ _ _ htsk hfin))

/-- The whole event pump preserves the pool invariant. -/
theorem do_events_poolInv (st : EngineState) (hasInit hasReceive intr : Bool)
    (recv : Option (Packet × Nat)) (now sendRet : Nat) (h : poolInv st.tasks) :
    poolInv (do_events st hasInit hasReceive intr recv now sendRet).tasks := by
  unfold do_events
  split
  · exact h
  · have hfold := @foldl_preserves Nat TickState (fun tsx => poolInv tsx.st.tasks)
      (taskStep now sendRet) (fun b a hb => taskStep_poolInv now sendRet b a hb)
      (List.range st.tasks.length)
    dsimp only
    repeat' split
    all_goals (refine hfold _ ?_; exact h)

/-- C9: a task in a state other than `RECEIVE`, `NOTHING` or `FINISHED`
always holds a timer subscription, and every transition performed by the
engine preserves this: frame delivery (`tev_received` + commit), timer
delivery (`tev_wakeup` + commit), data retrieval, the
`send_get_final_status` mutation, task creation by each of the three entry
points, and a whole `do_events` tick. -/
theorem C9_nonpassive_tasks_have_timer :
    (∀ (rda spd now : Nat) (t : Task) (pk : Packet) (seen : Bool), taskInv t →
      taskInv (task_commit (tev_received rda spd now t pk seen).task
        (tev_received rda spd now t pk seen).ret))
    ∧ (∀ (spd rpd now sendRet : Nat) (t : Task), taskInv t →
      taskInv (task_commit (tev_wakeup spd rpd now sendRet t).task
        (tev_wakeup spd rpd now sendRet t).ret))
    ∧ (∀ (rpd buf_len : Nat) (t : Task), taskInv t →
      taskInv (data_retrieve_task rpd buf_len t).task)
    ∧ (∀ (now : Nat) (t : Task), taskInv (send_get_final_status_task now t))
    ∧ (∀ (st : EngineState) (hasInit hasSend : Bool) (dst : Nat)
        (data : Option (List Nat)) (len : Nat) (ack : Bool) (now : Nat),
      poolInv st.tasks →
      poolInv (send_noblock st hasInit hasSend dst data len ack now).2.2.tasks)
    ∧ (∀ (st : EngineState) (hasInit hasReceive : Bool) (timeout : Option Nat) (now : Nat),
      poolInv st.tasks →
      poolInv (receive_noblock st hasInit hasReceive timeout now).2.2.tasks)
    ∧ (∀ (st : EngineState) (hdr : Header) (now : Nat), poolInv st.tasks →
      poolInv (send_ack_noblock st hdr now).tasks)
    ∧ (∀ (st : EngineState) (hasInit hasReceive intr : Bool)
        (recv : Option (Packet × Nat)) (now sendRet : Nat), poolInv st.tasks →
      poolInv (do_events st hasInit hasReceive intr recv now sendRet).tasks) :=
  ⟨tev_received_taskInv, tev_wakeup_taskInv, data_retrieve_taskInv,
    send_get_final_status_taskInv,
    send_noblock_poolInv, receive_noblock_poolInv, send_ack_noblock_poolInv,
    do_events_poolInv⟩

/-- The sample engine's fresh pool (two `ST_NOTHING` slots) satisfies the
invariant. -/
theorem sampleEngine_poolInv : poolInv sampleEngine.tasks := by
  intro i hi
  rcases i with _ | _ | i
  · exact fun _ h _ => absurd rfl h
  · exact fun _ h _ => absurd rfl h
  · have h2 : sampleEngine.tasks.length = 2 := rfl
    exact absurd hi (by omega)

/-- Witness for C9: one tick on the sample engine with the sample frame,
starting from the (invariant-satisfying) fresh pool. -/
theorem C9_nonpassive_tasks_have_timer_witness :
    poolInv (do_events sampleEngine true true true (some (sampleInFrame, 9)) 100 0).tasks :=
  C9_nonpassive_tasks_have_timer.2.2.2.2.2.2.2 sampleEngine true true true
    (some (sampleInFrame, 9)) 100 0 sampleEngine_poolInv

/-! ## C2 — idempotence of retransmits on the receiver side -/

theorem wsub_self (a : Nat) : wsub a a = 0 := by
  unfold wsub MTIME_MOD
  have h1 : a % 2 ^ 32 < 2 ^ 32 := Nat.mod_lt _ (by norm_num)
  omega

/-- The duplicate cache after the first observation of the frame: its
`(src, pktid)` pair installed in slot 0, all other slots free. -/
def c2cache (f : Packet) (now : Nat) : List CacheEntry :=
  ⟨true, f.header.src, now, f.header.pktid⟩ :: List.replicate 9 ⟨false, 0, 0, 0⟩

/-- Receiver-simulation state after the first delivery (task in
`RECEIVE_DATA_AVAILABLE`, frame stored, nothing retrieved, no ACK yet). -/
def c2A (f : Packet) (rda now taskid : Nat) : RcvSim :=
  { tsk := { fresh_receive_task taskid now with
      status := ST_RECEIVE_DATA_AVAILABLE
      pktkeeper := some f
      last_retcode := ERR_OK
      evtsub_wakeup := true
      mtime_ref := now
      mtime_wakeup := now + rda }
    cache := c2cache f now
    delivered := 0
    acks := 0 }

/-- Receiver-simulation state after retrieval and `j` post-retrieval
duplicate arrivals: task in `RECEIVE_DATA_RETRIEVED`, buffer shrunk to the
header, one delivery, `1 + j` ACKs queued. -/
def c2R (f : Packet) (rpd now taskid j : Nat) : RcvSim :=
  { tsk := { fresh_receive_task taskid now with
      status := ST_RECEIVE_DATA_RETRIEVED
      pktkeeper := some ⟨{ f.header with len := 0 }, []⟩
      last_retcode := ERR_OK
      evtsub_wakeup := true
      mtime_ref := now
      mtime_wakeup := now + rpd }
    cache := c2cache f now
    delivered := 1
    acks := 1 + j }

/-- First observation of the frame installs it in the empty cache. -/
theorem c2cache_first (f : Packet) (now : Nat) :
    check_pktid_already_seen initCache f.header.src f.header.pktid now
      = (false, c2cache f now) := by
  simp [check_pktid_already_seen, cache_scan, cacheScanLoop, ScanAcc.init, initCache,
    PKTID_CACHE_SIZE, entryExpire, cacheInstallIdx, c2cache, List.replicate]

/-- Re-observing the same frame is reported as already-seen; the cache is
unchanged (the refreshed timestamp is the same instant). -/
theorem c2cache_again (f : Packet) (now : Nat) :
    check_pktid_already_seen (c2cache f now) f.header.src f.header.pktid now
      = (true, c2cache f now) := by
  simp [check_pktid_already_seen, cache_scan, cacheScanLoop, ScanAcc.init,
    entryExpire, cacheInstallIdx, c2cache, List.replicate, wsub_self,
    CACHE_PKTID_DISCARD_DELAY]

/-- The first arrival: fresh receiver task plus empty cache go to state
`c2A`; no ACK is transmitted yet. -/
theorem c2_first_arrive (f : Packet) (rda rpd buf_len now taskid : Nat)
    (hack : flags_opt f.header.flags &&& FLAG_ACK = 0) :
    rcvStep rda rpd buf_len now f ⟨fresh_receive_task taskid now, initCache, 0, 0⟩
      RcvEv.arrive = c2A f rda now taskid := by
  simp only [rcvStep, c2cache_first]
  simp [tev_received, task_commit, hack, fresh_receive_task, task_create_fields,
    task_initialize, c2A, ST_RECEIVE, ST_RECEIVE_DATA_AVAILABLE, ST_FINISHED, ERR_OK]

/-- A duplicate arriving while the task is still in
`RECEIVE_DATA_AVAILABLE` is consumed without any ACK and changes nothing. -/
theorem c2_dup_arrive_avail (f : Packet) (rda rpd buf_len now taskid : Nat)
    (hack : flags_opt f.header.flags &&& FLAG_ACK = 0) :
    rcvStep rda rpd buf_len now f (c2A f rda now taskid) RcvEv.arrive
      = c2A f rda now taskid := by
  simp only [rcvStep, c2A, c2cache_again]
  simp [tev_received, task_commit, hack, pkHeaderPktid, pkHeaderSrc,
    ST_RECEIVE, ST_RECEIVE_DATA_AVAILABLE, ST_RECEIVE_DATA_RETRIEVED, ST_FINISHED]

/-- Retrieval delivers the payload once and queues the first ACK. -/
theorem c2_retrieve (f : Packet) (rda rpd buf_len now taskid : Nat)
    (hsin : flags_opt f.header.flags &&& FLAG_SIN ≠ 0) :
    rcvStep rda rpd buf_len now f (c2A f rda now taskid) RcvEv.retrieve
      = c2R f rpd now taskid 0 := by
  simp only [rcvStep, c2A, c2R]
  simp [data_retrieve_task, data_retrieved_post, pkReduceToHeader, send_ack_fires,
    pkGetFlags, hsin, ST_RECEIVE_DATA_AVAILABLE, ST_RECEIVE_DATA_RETRIEVED]

/-- A duplicate arriving in `RECEIVE_DATA_RETRIEVED` is consumed and
re-answered with one more ACK. -/
theorem c2_dup_arrive_retrieved (f : Packet) (rda rpd buf_len now taskid j : Nat)
    (hack : flags_opt f.header.flags &&& FLAG_ACK = 0)
    (hsin : flags_opt f.header.flags &&& FLAG_SIN ≠ 0) :
    rcvStep rda rpd buf_len now f (c2R f rpd now taskid j) RcvEv.arrive
      = c2R f rpd now taskid (j + 1) := by
  simp only [rcvStep, c2R, c2cache_again]
  simp [tev_received, task_commit, hack, hsin, pkHeaderPktid, pkHeaderSrc,
    send_ack_fires, pkGetFlags, ST_RECEIVE, ST_RECEIVE_DATA_AVAILABLE,
    ST_RECEIVE_DATA_RETRIEVED, ST_FINISHED]
  omega

/-- Any number of duplicates in `RECEIVE_DATA_AVAILABLE` leave the state
unchanged. -/
theorem c2_fold_avail (f : Packet) (rda rpd buf_len now taskid : Nat)
    (hack : flags_opt f.header.flags &&& FLAG_ACK = 0) :
    ∀ k : Nat, (List.replicate k RcvEv.arrive).foldl (rcvStep rda rpd buf_len now f)
      (c2A f rda now taskid) = c2A f rda now taskid := by
  intro k
  induction k with
  | zero => rfl
  | succ k ih =>
    rw [List.replicate_succ, List.foldl_cons,
      c2_dup_arrive_avail f rda rpd buf_len now taskid hack, ih]

/-- `m` duplicates in `RECEIVE_DATA_RETRIEVED` add exactly `m` ACKs. -/
theorem c2_fold_retrieved (f : Packet) (rda rpd buf_len now taskid : Nat)
    (hack : flags_opt f.header.flags &&& FLAG_ACK = 0)
    (hsin : flags_opt f.header.flags &&& FLAG_SIN ≠ 0) :
    ∀ (m j : Nat), (List.replicate m RcvEv.arrive).foldl (rcvStep rda rpd buf_len now f)
      (c2R f rpd now taskid j) = c2R f rpd now taskid (j + m) := by
  intro m
  induction m with
  | zero => intro j; rfl
  | succ m ih =>
    intro j
    rw [List.replicate_succ, List.foldl_cons,
      c2_dup_arrive_retrieved f rda rpd buf_len now taskid j hack hsin, ih]
    have : j + 1 + m = j + (m + 1) := by omega
    rw [this]

/-- C2 counterexample: the claim asserts that a frame arriving `N ≥ 2`
times always produces exactly `N` ACKs, "regardless of whether the
receiver is in RECEIVE_DATA_AVAILABLE or RECEIVE_DATA_RETRIEVED".  With
`N = 2` and the duplicate arriving while the task is still in
`RECEIVE_DATA_AVAILABLE` (before retrieval), the delivered count is 1 but
only ONE ACK is ever transmitted: the duplicate is consumed silently and
only the retrieval itself answers with an ACK. -/
theorem C2_counterexample_dup_before_retrieval :
    (rcvRun 900 1000 50 100 1 sampleInFrame
        [RcvEv.arrive, RcvEv.arrive, RcvEv.retrieve]).delivered = 1
    ∧ (rcvRun 900 1000 50 100 1 sampleInFrame
        [RcvEv.arrive, RcvEv.arrive, RcvEv.retrieve]).acks = 1
    ∧ ¬((rcvRun 900 1000 50 100 1 sampleInFrame
        [RcvEv.arrive, RcvEv.arrive, RcvEv.retrieve]).acks = 2)
    ∧ (rcvRun 900 1000 50 100 1 sampleInFrame [RcvEv.arrive]).tsk.status
        = ST_RECEIVE_DATA_AVAILABLE := by
  decide

/-- C2 amended: for a frame with SIN set arriving `N = 1 + k + m` times —
once fresh, `k` duplicates before retrieval, `m` duplicates after — the
application-visible delivery count is exactly 1, and the number of ACKs
transmitted is exactly `1 + m`: one at retrieval plus one per duplicate
arriving while the task is in `RECEIVE_DATA_RETRIEVED`.  Duplicates
arriving while the task is still in `RECEIVE_DATA_AVAILABLE` are consumed
without an ACK, so the total equals `N` exactly when all duplicates arrive
after retrieval (`k = 0`). -/
theorem C2_one_delivery_acks_per_retrieved_arrival (f : Packet)
    (rda rpd buf_len now taskid k m : Nat)
    (hsin : flags_opt f.header.flags &&& FLAG_SIN ≠ 0)
    (hack : flags_opt f.header.flags &&& FLAG_ACK = 0) :
    (rcvRun rda rpd buf_len now taskid f
        (RcvEv.arrive :: (List.replicate k RcvEv.arrive
          ++ RcvEv.retrieve :: List.replicate m RcvEv.arrive))).delivered = 1
    ∧ (rcvRun rda rpd buf_len now taskid f
        (RcvEv.arrive :: (List.replicate k RcvEv.arrive
          ++ RcvEv.retrieve :: List.replicate m RcvEv.arrive))).acks = 1 + m := by
  unfold rcvRun
  rw [List.foldl_cons, c2_first_arrive f rda rpd buf_len now taskid hack,
    List.foldl_append, c2_fold_avail f rda rpd buf_len now taskid hack,
    List.foldl_cons, c2_retrieve f rda rpd buf_len now taskid hsin,
    c2_fold_retrieved f rda rpd buf_len now taskid hack hsin]
  exact ⟨rfl, by simp [c2R]⟩

/-- Witness for C2's amended statement: the sample SIN frame arriving
twice, the duplicate after retrieval (`k = 0`, `m = 1`): one delivery, two
ACKs. -/
theorem C2_one_delivery_acks_per_retrieved_arrival_witness :
    (rcvRun 900 1000 50 100 1 sampleInFrame
        (RcvEv.arrive :: (List.replicate 0 RcvEv.arrive
          ++ RcvEv.retrieve :: List.replicate 1 RcvEv.arrive))).delivered = 1
    ∧ (rcvRun 900 1000 50 100 1 sampleInFrame
        (RcvEv.arrive :: (List.replicate 0 RcvEv.arrive
          ++ RcvEv.retrieve :: List.replicate 1 RcvEv.arrive))).acks = 1 + 1 :=
  C2_one_delivery_acks_per_retrieved_arrival sampleInFrame 900 1000 50 100 1 0 1
    (by decide) (by decide)

/-- Witness for C7: a frame whose on-wire size (8 bytes) disagrees with its
declared payload length (3) is rejected, and the tick on the sample engine
with that frame equals the no-frame tick. -/
theorem C7_invalid_frames_dropped_witness :
    (check_rcvd_pkt_is_ok 10 (some sampleInFrame) 9 = true ↔
      (sampleInFrame.header.len ≤ 10 ∧ HEADER_SIZE + sampleInFrame.header.len = 9))
    ∧ do_events sampleEngine true true true (some (sampleInFrame, 8)) 100 0
        = do_events sampleEngine true true true none 100 0 :=
  ⟨C7_invalid_frames_dropped.1 10 sampleInFrame 9,
    C7_invalid_frames_dropped.2.2.1 sampleEngine true true true sampleInFrame 8 100 0
      (by decide)⟩

end RFLinkModel
